import Mathlib

/-!
Verification of the askbot deployment installer
(`src/askbot/deployment/__init__.py`).

Shallow embedding conventions:

* Filesystem paths are modelled as lists of path components (`FPath`); the
  string `"a/b/c"` becomes `["a", "b", "c"]`.  `os.path.join d f` becomes
  `d ++ [f]`.  No component contains a separator.
* The filesystem is a pair of total functions: file contents by path and a
  directory flag by path.  Python file operations that raise on a missing
  source are modelled with `Option` (`none` = the run raises).
* `print_message` output is modelled per processed item as a list of message
  strings (the surrounding `Copying files:` / `Done.` progress headers are
  elided; they carry no per-operation information).
* The template renderer (`askbot.deployment.template_loader`, not under
  `src/`) is, per the spec, a pure function from template id and context to
  text; it is a parameter `tmpl : FPath → OptsC → String` of the model.
* The console collaborator (`askbot.utils.console`, not under `src/`) is
  modelled, per the spec boundary, as consuming a script of operator
  answers (a `List String`).
-/

abbrev FPath := List String

/-- Filesystem state: file contents by path and directory flag by path. -/
structure FS where
  files : FPath → Option String
  dirs : FPath → Bool

/-- `os.path.exists`: true for an existing file or an existing directory. -/
def FS.pathExists (fs : FS) (p : FPath) : Bool :=
  (fs.files p).isSome || fs.dirs p

/-- Writing a file (`open(dst, "w+")` followed by `write`). -/
def FS.writeFile (fs : FS) (p : FPath) (c : String) : FS :=
  ⟨fun q => if q = p then some c else fs.files q, fs.dirs⟩

/-- Modelled from the spec: `path_utils.create_path` (not under `src/`)
creates the directory if absent and does nothing when it already exists. -/
def FS.createDir (fs : FS) (p : FPath) : FS :=
  if fs.dirs p then fs
  else ⟨fs.files, fun q => if q = p then true else fs.dirs q⟩

/-- Modelled from the spec: `path_utils.touch` (not under `src/`) creates an
empty file when absent; on an existing file it only updates metadata, which
the model does not track. -/
def FS.touch (fs : FS) (p : FPath) : FS :=
  if (fs.files p).isSome then fs else fs.writeFile p ""

/-- Appending to a file (`open(dst, "a")` followed by `write`); append mode
creates the file when it does not exist. -/
def FS.appendFile (fs : FS) (p : FPath) (s : String) : FS :=
  match fs.files p with
  | some c => fs.writeFile p (c ++ s)
  | none => fs.writeFile p s

/-- Python values as needed by the options mapping: `argparse` stores the
`--db-engine` value as an `int` (or `None`), while the interactive prompt
stores a `str`; Python `==` between an `int` and a `str` is `False`. -/
inductive PyVal where
  | int (n : Int)
  | str (s : String)
  | none
deriving DecidableEq

/-- Python `==` on the modelled values. -/
def pyEq : PyVal → PyVal → Bool
  | PyVal.int a, PyVal.int b => a == b
  | PyVal.str a, PyVal.str b => a == b
  | PyVal.none, PyVal.none => true
  | _, _ => false

/-- Python `in` over a tuple, by `==` on each element. -/
def pyIn (v : PyVal) (t : List PyVal) : Bool :=
  t.any (pyEq v)

/-- Python truthiness of an optional string (`None` and `""` are falsy). -/
def truthyStr : Option String → Bool
  | some s => s != ""
  | Option.none => false

/-- The parsed options mapping (`vars(options)`), restricted to the fields
the deployment claims touch; defaults are the `argparse` defaults.  The
cache fields and `--create-project` are omitted: the model fixes the default
`create_project = "django"` behaviour (`_set_create_project`).  `secret_key`
is `Option String` because the dict key does not exist until
`collect_missing_options` assigns it. -/
structure OptsC where
  dir_name : FPath := []
  app_name : String := "askbot_app"
  logfile_name : String := "askbot.log"
  local_settings : FPath := []
  no_secret_key : Bool := false
  force : Bool := false
  dry_run : Bool := false
  use_defaults : Bool := false
  interactive : Bool := true
  verbosity : Int := 1
  database_engine : PyVal := PyVal.none
  database_name : Option String := Option.none
  database_user : Option String := Option.none
  database_password : Option String := Option.none
  database_host : Option String := Option.none
  database_port : Option String := Option.none
  secret_key : Option String := Option.none
  askbot_site : FPath := []
  askbot_app : String := ""
  staticfiles_app : String := ""
  auth_context_processor : String := ""

/-- `DATABASE_ENGINE_CHOICES = ("1", "2", "3", "4")` (a tuple of strings). -/
def DATABASE_ENGINE_CHOICES : List String := ["1", "2", "3", "4"]

/-- Modelled from the spec: `path_utils.FILES_TO_CREATE` (not under `src/`),
the reserved installation filenames.  The spec names the entry point
`manage.py`; the installer force-overwrites the URL-routing file `urls.py`
and copies an app skeleton, so those names are included. -/
def FILES_TO_CREATE : List String := ["manage.py", "urls.py", "__init__.py"]

/-- `PROJECT_FILES_TO_CREATE = set(("manage.py",))` (source line 24). -/
def PROJECT_FILES_TO_CREATE : List String := ["manage.py"]

/-- `APP_FILES_TO_CREATE = set(FILES_TO_CREATE) - set(("manage.py",))`
(source line 25). -/
def APP_FILES_TO_CREATE : List String := ["urls.py", "__init__.py"]

/-- Modelled from the spec: `path_utils.BLANK_FILES` (not under `src/`), the
skip-silently set of files users are expected to already have (the spec
names a generic readme). -/
def BLANK_FILES : List String := ["README.md"]

/-- Modelled from the spec: `path_utils.LOG_DIR_NAME` (not under `src/`),
the reserved log-directory name. -/
def LOG_DIR_NAME : String := "log"

/-- `SOURCE_DIR`, the askbot package root (source line 26), as an abstract
fixed path. -/
def SOURCE_DIR : FPath := ["askbot"]

/-- `os.path.join(SOURCE_DIR, "setup_templates", f)`. -/
def tmplSrc (f : String) : FPath := SOURCE_DIR ++ ["setup_templates", f]

/-- Rendering a path back to a string for messages (`os.path.sep = "/"`). -/
def pathStr (p : FPath) : String := String.intercalate "/" p

/-- `dst.split(os.path.sep)[-1]`: the last path component. -/
def basename (p : FPath) : String := p.getLast?.getD ""

/-- `dst.endswith(os.path.sep + c)` for a component name `c`: in the
component model this holds exactly when the path has at least two components
(so a separator occurs) and its last component is `c`. -/
def endsWithSep (dst : FPath) (c : String) : Bool :=
  decide (2 ≤ dst.length) && (dst.getLast? == some c)

/-- `matches = [dst for c in forced_overwrite if dst.endswith(sep + c)]`;
the copy is forced when this list is non-empty. -/
def forcedMatch (dst : FPath) (forced : List String) : Bool :=
  forced.any (endsWithSep dst)

/-- `print_message(f"* to {dst} from {src}", ...)` (source line 325). -/
def copyProgressMsg (src dst : FPath) : String :=
  "* to " ++ pathStr dst ++ " from " ++ pathStr src

/-- `print_message("  ^^^ forced overwrite!", ...)` (source line 332). -/
def forcedNoteMsg : String := "  ^^^ forced overwrite!"

/-- `print_message(f"  ^^^ you already have one, please add contents of
{src}", ...)` (source line 335). -/
def copyAdvisoryMsg (src : FPath) : String :=
  "  ^^^ you already have one, please add contents of " ++ pathStr src

/-- One iteration of the loop body of `AskbotSetup._install_copy` (source
lines 324-335): copy when the destination is absent; otherwise overwrite
when a forced name matches, stay silent when the basename is in the
skip-silently set, and emit the advisory message otherwise.  `shutil.copy`
raises when the source file is missing (`none`). -/
def copyOne (forced skip : List String) (fs : FS) (i : FPath × FPath) :
    Option (FS × List String) :=
  let src := i.1
  let dst := i.2
  if fs.pathExists dst then
    if forcedMatch dst forced then
      match fs.files src with
      | some c => some (fs.writeFile dst c, [copyProgressMsg src dst, forcedNoteMsg])
      | Option.none => Option.none
    else if basename dst ∈ skip then
      some (fs, [copyProgressMsg src dst])
    else
      some (fs, [copyProgressMsg src dst, copyAdvisoryMsg src])
  else
    match fs.files src with
    | some c => some (fs.writeFile dst c, [copyProgressMsg src dst])
    | Option.none => Option.none

/-- `AskbotSetup._install_copy`: the loop over the copy list, threading the
filesystem (per-item messages are modelled in `copyOne`). -/
def install_copy (forced skip : List String) :
    List (FPath × FPath) → FS → Option FS
  | [], fs => some fs
  | i :: rest, fs =>
    match copyOne forced skip fs i with
    | some r => install_copy forced skip rest r.1
    | Option.none => Option.none

/-- `print_message(f"* you already have a file ... please merge the
contents", ...)` (source line 343). -/
def renderAdvisoryMsg (dst : FPath) : String :=
  "* you already have a file " ++ pathStr dst ++ " please merge the contents"

/-- `print_message(f"*    {dst} from {src}", ...)` (source line 345). -/
def renderProgressMsg (src dst : FPath) : String :=
  "*    " ++ pathStr dst ++ " from " ++ pathStr src

/-- One iteration of the loop body of
`AskbotSetup._install_render_with_jinja2` (source lines 341-349): an
existing destination is never overwritten (advisory message only); an
absent one receives the template rendered with the options as context. -/
def renderOne (tmpl : FPath → OptsC → String) (ctx : OptsC) (fs : FS)
    (i : FPath × FPath) : FS × List String :=
  let src := i.1
  let dst := i.2
  if fs.pathExists dst then (fs, [renderAdvisoryMsg dst])
  else (fs.writeFile dst (tmpl src ctx), [renderProgressMsg src dst])

/-- `AskbotSetup._install_render_with_jinja2`: the loop over the render
list (per-item messages are modelled in `renderOne`). -/
def install_render_with_jinja2 (tmpl : FPath → OptsC → String) (ctx : OptsC)
    (items : List (FPath × FPath)) (fs : FS) : FS :=
  items.foldl (fun s i => (renderOne tmpl ctx s i).1) fs

/-- The local-settings block at the end of `AskbotSetup._create_new_django_app`
(source lines 413-421): when `options["local_settings"]` is a non-empty path
naming an existing file, open `<app_dir>/settings.py` in append mode and
write a newline followed by the external file content verbatim.  This block
is executed unconditionally after the render loop.  Reading the content
raises when the existing path is not a regular file (`none`). -/
def append_local_settings (opts : OptsC) (appDir : FPath) (fs : FS) :
    Option FS :=
  if 0 < opts.local_settings.length ∧ fs.pathExists opts.local_settings = true then
    match fs.files opts.local_settings with
    | some c => some (fs.appendFile (appDir ++ ["settings.py"]) ("\n" ++ c))
    | Option.none => Option.none
  else some fs

/-- `AskbotSetup._create_new_django_project` (source lines 352-371) in the
default `django` mode: create the install and log directories, touch the
log file, then copy the project files with the skip-silently set. -/
def create_new_django_project (opts : OptsC) (fs : FS) : Option FS :=
  let installDir := opts.dir_name
  let logDir := installDir ++ [LOG_DIR_NAME]
  let logFile := logDir ++ [opts.logfile_name]
  let fs1 := (fs.createDir installDir).createDir logDir
  let fs2 := fs1.touch logFile
  install_copy [] BLANK_FILES
    (PROJECT_FILES_TO_CREATE.map (fun f => (tmplSrc f, installDir ++ [f]))) fs2

/-- `AskbotSetup._create_new_django_app` (source lines 373-421) in the
default `django` mode: record `askbot_site` / `askbot_app` in the options
(the render context), create the app directory, copy the app skeleton with
`urls.py` forced, render `settings.py`, then run the local-settings block. -/
def create_new_django_app (tmpl : FPath → OptsC → String) (appName : String)
    (opts : OptsC) (fs : FS) : Option FS :=
  let ctx : OptsC :=
    { opts with askbot_site := opts.dir_name, askbot_app := appName }
  let appDir : FPath := opts.dir_name ++ [appName]
  let fs1 := fs.createDir appDir
  match install_copy ["urls.py"] BLANK_FILES
      (APP_FILES_TO_CREATE.map (fun f => (tmplSrc f, appDir ++ [f]))) fs1 with
  | Option.none => Option.none
  | some fs2 =>
    let fs3 := install_render_with_jinja2 tmpl ctx
      [(tmplSrc "settings.py.jinja2", appDir ++ ["settings.py"])] fs2
    append_local_settings ctx appDir fs3

/-- The full deployment plan of `AskbotSetup.deploy_askbot` when a new
project is created: all CreateDir, Copy, Render and Append operations, in
plan order (`_create_new_django_project` then
`_create_new_django_app("askbot_app", ...)`). -/
def runFullPlan (tmpl : FPath → OptsC → String) (opts : OptsC) (fs : FS) :
    Option FS :=
  match create_new_django_project opts fs with
  | Option.none => Option.none
  | some fs1 => create_new_django_app tmpl "askbot_app" opts fs1

/-- Modelled from the spec: `path_utils.has_existing_django_project` (not
under `src/`) recognizes a prior deployment by the presence of its project
files in the directory. -/
def hasExistingDjangoProject (fs : FS) (d : FPath) : Bool :=
  (fs.files (d ++ ["manage.py"])).isSome ||
  (fs.files (d ++ ["settings.py"])).isSome

/-- `AskbotSetup.deploy_askbot` (source lines 423-454).  The guard at lines
430-432 evaluates `options.force` with attribute syntax although `options`
is a plain dict (`vars(options)`), so whenever the target directory exists
and contains a recognizable project Python raises `AttributeError` before
any file operation; this is modelled as `Except.error "AttributeError"`.
Otherwise `create_new_project` stays `True`, the context fields are set and
the full plan runs.  A failing file operation (missing copy source) is
surfaced as `Except.error "FileNotFoundError"`. -/
def deploy_askbot (tmpl : FPath → OptsC → String) (opts : OptsC) (fs : FS) :
    Except String FS :=
  if fs.pathExists opts.dir_name && hasExistingDjangoProject fs opts.dir_name then
    Except.error "AttributeError"
  else
    let opts1 : OptsC :=
      { opts with staticfiles_app := "django.contrib.staticfiles",
                  auth_context_processor := "django.contrib.auth.context_processors.auth" }
    match runFullPlan tmpl opts1 fs with
    | some F => Except.ok F
    | Option.none => Except.error "FileNotFoundError"

/-- Modelled from the spec: `console.choice_dialog` (not under `src/`)
re-prompts until the operator answer is in the supplied choice set; the
script is the sequence of operator answers. -/
def choiceDialog (choices : List String) :
    List String → Option (String × List String)
  | [] => Option.none
  | a :: rest =>
    if a ∈ choices then some (a, rest) else choiceDialog choices rest

/-- The database-engine step of `AskbotSetup.__call__` (source lines
269-274): `options.database_engine` (an `int` or `None` from `argparse`) is
tested for membership in the string tuple `DATABASE_ENGINE_CHOICES`; on
failure the choice dialog constrained to the four codes is invoked and its
string answer stored. -/
def engineStep (dbe : PyVal) (script : List String) :
    Option (PyVal × List String) :=
  if pyIn dbe (DATABASE_ENGINE_CHOICES.map PyVal.str) then some (dbe, script)
  else
    match choiceDialog DATABASE_ENGINE_CHOICES script with
    | some r => some (PyVal.str r.1, r.2)
    | Option.none => Option.none

/-- Modelled from the spec: `console.simple_dialog` (not under `src/`)
returns the next operator answer; with `required=True` it re-prompts until
the answer is non-empty. -/
def simpleDialog (required : Bool) :
    List String → Option (String × List String)
  | [] => Option.none
  | a :: rest =>
    if required && a == "" then simpleDialog required rest
    else some (a, rest)

/-- `if options_dict[key] is None: ... value = console.simple_dialog(...)`
(source lines 684-696): prompt only when the current value is `None`. -/
def promptIfNone (required : Bool) (cur : Option String)
    (script : List String) : Option (Option String × List String) :=
  match cur with
  | some v => some (some v, script)
  | Option.none =>
    match simpleDialog required script with
    | some r => some (some r.1, r.2)
    | Option.none => Option.none

/-- The `database_file_name` value one loop iteration assigns to a
candidate that is not an existing regular file (source lines 663-670):
`None` for an existing directory, for a name in `FILES_TO_CREATE` and for
the log-directory name; the candidate itself otherwise. -/
def sqliteCandidate (isdir : String → Bool) (v : String) : Option String :=
  if isdir v then Option.none
  else if v ∈ FILES_TO_CREATE then Option.none
  else if v = LOG_DIR_NAME then Option.none
  else some v

/-- The sqlite database-file-name prompt loop of `collect_missing_options`
(source lines 654-674).  Each candidate from the console script is checked
in source order: an existing regular file asks the yes/no confirmation (the
next script entry; anything but `yes` leaves `database_file_name` unset),
then an existing directory, a name in `FILES_TO_CREATE` and the
log-directory name leave it unset; any other name becomes
`database_file_name`.  The iteration ends with the truthiness test
`if database_file_name:` (source line 672), so both an unset name and the
empty string re-prompt; only a truthy name is returned.  `isfile` /
`isdir` are the `os.path` observations. -/
def sqliteNameLoop (isfile isdir : String → Bool) :
    List String → Option String
  | [] => Option.none
  | v :: rest =>
    if isfile v then
      match rest with
      | [] => Option.none
      | ans :: rest2 =>
        let database_file_name := if ans = "yes" then some v else Option.none
        if truthyStr database_file_name then database_file_name
        else sqliteNameLoop isfile isdir rest2
    else
      let database_file_name := sqliteCandidate isdir v
      if truthyStr database_file_name then database_file_name
      else sqliteNameLoop isfile isdir rest

/-- The engine-dependent part of `collect_missing_options` (source lines
651-697), applied to the options after the secret-key assignment.  The
sqlite branch keeps a truthy `database_name` or runs the file-name loop;
every other engine prompts, in order, for each of name/user/password
(required) and host/port (optional) that is `None`. -/
def collect_db_options (isfile isdir : String → Bool)
    (script : List String) (o0 : OptsC) : Option OptsC :=
  if pyEq o0.database_engine (PyVal.str "2") then
    if truthyStr o0.database_name then some o0
    else
      match sqliteNameLoop isfile isdir script with
      | some v => some { o0 with database_name := some v }
      | Option.none => Option.none
  else
    match promptIfNone true o0.database_name script with
    | Option.none => Option.none
    | some (n, s1) =>
      match promptIfNone true o0.database_user s1 with
      | Option.none => Option.none
      | some (u, s2) =>
        match promptIfNone true o0.database_password s2 with
        | Option.none => Option.none
        | some (pw, s3) =>
          match promptIfNone false o0.database_host s3 with
          | Option.none => Option.none
          | some (h, s4) =>
            match promptIfNone false o0.database_port s4 with
            | Option.none => Option.none
            | some (pt, _) =>
              some { o0 with database_name := n, database_user := u,
                             database_password := pw, database_host := h,
                             database_port := pt }

/-- `collect_missing_options` (source lines 649-697).  The secret key is
assigned first (source line 650): empty when `no_secret_key`, otherwise
the generated random key (`generate_random_key` is not under `src/`; per
the spec it always succeeds with a fresh value, so it is a parameter
`genKey`); the engine-dependent prompting follows. -/
def collect_missing_options (genKey : String) (isfile isdir : String → Bool)
    (script : List String) (opts : OptsC) : Option OptsC :=
  collect_db_options isfile isdir script
    { opts with secret_key := some (if opts.no_secret_key then "" else genKey) }

/-- `database_engine_codes[...]` (source lines 284-290): the code-to-name
dict; a key that is not one of the four string codes raises `KeyError`
(`none`). -/
def engineCodeName : PyVal → Option String
  | PyVal.str s =>
    if s = "1" then some "postgresql_psycopg2"
    else if s = "2" then some "sqlite3"
    else if s = "3" then some "mysql"
    else if s = "4" then some "oracle"
    else Option.none
  | _ => Option.none

/-- The resolution fragment of `AskbotSetup.__call__` (source lines
269-291): the engine membership test and prompt, then
`collect_missing_options` only when `options.force is False`, then the
code-to-name translation of the engine. -/
def callResolve (genKey : String) (isfile isdir : String → Bool)
    (engineScript dbScript : List String) (opts : OptsC) : Option OptsC :=
  match engineStep opts.database_engine engineScript with
  | Option.none => Option.none
  | some (dbe, _) =>
    let o1 : OptsC := { opts with database_engine := dbe }
    let o2opt := if o1.force = false
      then collect_missing_options genKey isfile isdir dbScript o1
      else some o1
    match o2opt with
    | Option.none => Option.none
    | some o2 =>
      match engineCodeName o2.database_engine with
      | some nm => some { o2 with database_engine := PyVal.str nm }
      | Option.none => Option.none

/-- Two filesystem states with the same shape: the same paths carry files
(contents may differ) and the directory sets coincide.  Used to express
that a parameter influences file contents only, never which destination
paths exist. -/
def sameShape (a b : FS) : Prop :=
  (∀ p, (a.files p).isSome = (b.files p).isSome) ∧ a.dirs = b.dirs

/-- `sameShape` lifted to fallible results: both fail alike, or both
succeed with same-shaped states. -/
def relOptFS : Option FS → Option FS → Prop
  | some a, some b => sameShape a b
  | Option.none, Option.none => True
  | _, _ => False

/-- `sameShape` lifted to `deploy_askbot` results. -/
def relExceptFS : Except String FS → Except String FS → Prop
  | Except.ok a, Except.ok b => sameShape a b
  | Except.error e, Except.error f => e = f
  | _, _ => False

/-- Pointwise growth of a filesystem: nothing existing is ever removed. -/
def FSLE (a b : FS) : Prop :=
  (∀ p, (a.files p).isSome = true → (b.files p).isSome = true) ∧
  (∀ p, a.dirs p = true → b.dirs p = true)

/-- A template function for concrete runs. -/
def tmplW : FPath → OptsC → String := fun _ _ => "RENDERED"

/-- Concrete options: a fresh install into `site/`, no local settings. -/
def optsW : OptsC := { dir_name := ["site"] }

/-- Concrete starting filesystem: only the three setup templates exist. -/
def fsW : FS :=
  ⟨fun p =>
    if p = tmplSrc "manage.py" then some "MANAGE"
    else if p = tmplSrc "urls.py" then some "URLS"
    else if p = tmplSrc "__init__.py" then some "INIT"
    else if p = tmplSrc "settings.py.jinja2" then some "SETTINGS-TEMPLATE"
    else Option.none,
   fun _ => false⟩

/-- The state after one full concrete run from `fsW`. -/
def fsW1 : FS := (runFullPlan tmplW optsW fsW).getD fsW

/-- Concrete options with a configured local-settings file. -/
def optsX : OptsC := { dir_name := ["site"], local_settings := ["extra.cfg"] }

/-- `fsW` plus the external local-settings file. -/
def fsX : FS :=
  ⟨fun p => if p = ["extra.cfg"] then some "EXTRA" else fsW.files p,
   fun _ => false⟩

/-- Concrete target for `deploy_askbot`: `site/` exists and already holds a
recognizable project. -/
def fsPrior : FS :=
  ⟨fun p => if p = ["site", "manage.py"] then some "OLDMANAGE" else Option.none,
   fun p => p = ["site"]⟩

/-- The state deployed by the successful concrete `deploy_askbot` run. -/
def fsDepW : FS :=
  match deploy_askbot tmplW optsW fsW with
  | Except.ok s => s
  | Except.error _ => fsW

/-- Concrete filesystem exercising every copy-conflict case: the template
sources plus an existing `urls.py` (forced name), `README.md` (skip-silently
name) and `manage.py` (neither) under `site/`. -/
def fsC4 : FS :=
  ⟨fun p =>
    if p = ["site", "urls.py"] then some "OLDURLS"
    else if p = ["site", "README.md"] then some "OLDREAD"
    else if p = ["site", "manage.py"] then some "OLDMANAGE"
    else fsW.files p,
   fun _ => false⟩

/-- Concrete filesystem where the settings destination already exists (so
the Render is skipped) and the configured local-settings file exists. -/
def fsC5 : FS :=
  ⟨fun p =>
    if p = ["site", "askbot_app", "settings.py"] then some "OLD"
    else if p = ["extra.cfg"] then some "EXTRA"
    else fsW.files p,
   fun _ => false⟩

/-- The state after the concrete app step over `fsC5`. -/
def fsC5App : FS :=
  (create_new_django_app tmplW "askbot_app" optsX fsC5).getD fsC5

/-- Concrete options for resolution: sqlite engine already chosen on the
command line as a string code, database name supplied. -/
def optsC7 : OptsC :=
  { database_engine := PyVal.str "2", database_name := some "db.sqlite" }

/-- The concrete resolved options for `optsC7`. -/
def optsC7R : OptsC :=
  (callResolve "KEY" (fun _ => false) (fun _ => false) [] [] optsC7).getD optsC7

theorem FS.ext2 {a b : FS} (hf : a.files = b.files) (hd : a.dirs = b.dirs) :
    a = b := by
  cases a; cases b; simp_all

theorem getLast_append_singleton (p : FPath) (a : String) :
    (p ++ [a]).getLast? = some a := by
  rw [List.getLast?_concat]

theorem ne_of_last {p q : FPath} {a b : String} (h : a ≠ b) :
    p ++ [a] ≠ q ++ [b] := by
  intro he
  have h1 := getLast_append_singleton p a
  rw [he, getLast_append_singleton] at h1
  exact h (Option.some.inj h1).symm

theorem ne_of_length {p q : FPath} (h : p.length ≠ q.length) : p ≠ q :=
  fun he => h (he ▸ rfl)

theorem ne_of_stem {p q : FPath} {a : String} (h : p ≠ q) :
    p ++ [a] ≠ q ++ [a] := by
  intro he
  exact h (by simpa using he)

theorem writeFile_files_self (fs : FS) (p : FPath) (c : String) :
    (fs.writeFile p c).files p = some c := by
  simp [FS.writeFile]

theorem writeFile_files_ne (fs : FS) {p q : FPath} (c : String) (h : q ≠ p) :
    (fs.writeFile p c).files q = fs.files q := by
  simp [FS.writeFile, h]

theorem writeFile_dirs (fs : FS) (p : FPath) (c : String) :
    (fs.writeFile p c).dirs = fs.dirs := rfl

theorem writeFile_noop {fs : FS} {p : FPath} {c : String}
    (h : fs.files p = some c) : fs.writeFile p c = fs := by
  apply FS.ext2
  · funext q
    by_cases hq : q = p
    · subst hq; simp [FS.writeFile, h]
    · simp [FS.writeFile, hq]
  · rfl

theorem createDir_files (fs : FS) (p : FPath) :
    (fs.createDir p).files = fs.files := by
  unfold FS.createDir; split <;> rfl

theorem createDir_dirs_self (fs : FS) (p : FPath) :
    (fs.createDir p).dirs p = true := by
  unfold FS.createDir
  split
  · assumption
  · simp

theorem createDir_noop {fs : FS} {p : FPath} (h : fs.dirs p = true) :
    fs.createDir p = fs := by
  unfold FS.createDir; simp [h]

theorem touch_dirs (fs : FS) (p : FPath) : (fs.touch p).dirs = fs.dirs := by
  unfold FS.touch; split <;> rfl

theorem touch_files_self_isSome (fs : FS) (p : FPath) :
    ((fs.touch p).files p).isSome = true := by
  unfold FS.touch
  split
  · assumption
  · simp [FS.writeFile]

theorem touch_noop {fs : FS} {p : FPath} (h : (fs.files p).isSome = true) :
    fs.touch p = fs := by
  unfold FS.touch; simp [h]

theorem touch_files_ne (fs : FS) {p q : FPath} (h : q ≠ p) :
    (fs.touch p).files q = fs.files q := by
  unfold FS.touch
  split
  · rfl
  · exact writeFile_files_ne fs "" h

theorem pathExists_of_isSome {fs : FS} {p : FPath}
    (h : (fs.files p).isSome = true) : fs.pathExists p = true := by
  simp [FS.pathExists, h]

theorem pathExists_writeFile_self (fs : FS) (p : FPath) (c : String) :
    (fs.writeFile p c).pathExists p = true := by
  simp [FS.pathExists, FS.writeFile]

theorem fsle_refl (fs : FS) : FSLE fs fs := ⟨fun _ h => h, fun _ h => h⟩

theorem fsle_trans {a b c : FS} (h1 : FSLE a b) (h2 : FSLE b c) : FSLE a c :=
  ⟨fun p hp => h2.1 p (h1.1 p hp), fun p hp => h2.2 p (h1.2 p hp)⟩

theorem fsle_writeFile (fs : FS) (p : FPath) (c : String) :
    FSLE fs (fs.writeFile p c) := by
  constructor
  · intro q hq
    by_cases h : q = p <;> simp [FS.writeFile, h, hq]
  · intro q hq; exact hq

theorem fsle_createDir (fs : FS) (p : FPath) : FSLE fs (fs.createDir p) := by
  unfold FS.createDir
  split
  · exact fsle_refl fs
  · constructor
    · intro q hq; exact hq
    · intro q hq; by_cases h : q = p <;> simp [h, hq]

theorem fsle_touch (fs : FS) (p : FPath) : FSLE fs (fs.touch p) := by
  unfold FS.touch
  split
  · exact fsle_refl fs
  · exact fsle_writeFile fs p ""

theorem fsle_appendFile (fs : FS) (p : FPath) (s : String) :
    FSLE fs (fs.appendFile p s) := by
  unfold FS.appendFile
  split <;> exact fsle_writeFile fs p _

theorem fsle_pathExists {a b : FS} (h : FSLE a b) {p : FPath}
    (hp : a.pathExists p = true) : b.pathExists p = true := by
  simp only [FS.pathExists, Bool.or_eq_true] at hp ⊢
  rcases hp with hp | hp
  · exact Or.inl (h.1 p hp)
  · exact Or.inr (h.2 p hp)

theorem forcedMatch_nil (dst : FPath) : forcedMatch dst [] = false := rfl

theorem forcedMatch_single {p : FPath} (a c : String) (hp : p ≠ []) :
    forcedMatch (p ++ [a]) [c] = (a == c) := by
  have hl : 1 ≤ p.length := List.length_pos.mpr hp
  simp only [forcedMatch, List.any_cons, List.any_nil, Bool.or_false,
    endsWithSep, getLast_append_singleton, List.length_append,
    List.length_singleton]
  have h2 : 2 ≤ p.length + 1 := by omega
  simp [h2]

theorem basename_append (p : FPath) (a : String) :
    basename (p ++ [a]) = a := by
  simp [basename, getLast_append_singleton]

theorem copyOne_absent {forced skip : List String} {fs : FS}
    {src dst : FPath} {c : String}
    (hd : fs.pathExists dst = false) (hs : fs.files src = some c) :
    copyOne forced skip fs (src, dst) =
      some (fs.writeFile dst c, [copyProgressMsg src dst]) := by
  simp [copyOne, hd, hs]

theorem copyOne_forced {forced skip : List String} {fs : FS}
    {src dst : FPath} {c : String}
    (hd : fs.pathExists dst = true) (hm : forcedMatch dst forced = true)
    (hs : fs.files src = some c) :
    copyOne forced skip fs (src, dst) =
      some (fs.writeFile dst c, [copyProgressMsg src dst, forcedNoteMsg]) := by
  simp [copyOne, hd, hm, hs]

theorem copyOne_skip {forced skip : List String} {fs : FS} {src dst : FPath}
    (hd : fs.pathExists dst = true) (hm : forcedMatch dst forced = false)
    (hk : basename dst ∈ skip) :
    copyOne forced skip fs (src, dst) = some (fs, [copyProgressMsg src dst]) := by
  simp [copyOne, hd, hm, hk]

theorem copyOne_advisory {forced skip : List String} {fs : FS} {src dst : FPath}
    (hd : fs.pathExists dst = true) (hm : forcedMatch dst forced = false)
    (hk : basename dst ∉ skip) :
    copyOne forced skip fs (src, dst) =
      some (fs, [copyProgressMsg src dst, copyAdvisoryMsg src]) := by
  simp [copyOne, hd, hm, hk]

theorem copyOne_cases {forced skip : List String} {fs : FS} {src dst : FPath}
    {r : FS × List String} (h : copyOne forced skip fs (src, dst) = some r) :
    (∃ c, fs.files src = some c ∧ r.1 = fs.writeFile dst c) ∨
    (r.1 = fs ∧ fs.pathExists dst = true) := by
  by_cases hd : fs.pathExists dst = true
  · by_cases hm : forcedMatch dst forced = true
    · cases hsrc : fs.files src with
      | none => simp [copyOne, hd, hm, hsrc] at h
      | some c =>
        rw [copyOne_forced hd hm hsrc] at h
        refine Or.inl ⟨c, rfl, ?_⟩
        rw [← Option.some.inj h]
    · replace hm : forcedMatch dst forced = false := by
        simpa using hm
      by_cases hk : basename dst ∈ skip
      · rw [copyOne_skip hd hm hk] at h
        refine Or.inr ⟨?_, hd⟩
        rw [← Option.some.inj h]
      · rw [copyOne_advisory hd hm hk] at h
        refine Or.inr ⟨?_, hd⟩
        rw [← Option.some.inj h]
  · replace hd : fs.pathExists dst = false := by simpa using hd
    cases hsrc : fs.files src with
    | none => simp [copyOne, hd, hsrc] at h
    | some c =>
      rw [copyOne_absent hd hsrc] at h
      refine Or.inl ⟨c, rfl, ?_⟩
      rw [← Option.some.inj h]

theorem copyOne_fsle {forced skip : List String} {fs : FS} {i : FPath × FPath}
    {r : FS × List String} (h : copyOne forced skip fs i = some r) :
    FSLE fs r.1 := by
  obtain ⟨src, dst⟩ := i
  rcases copyOne_cases h with ⟨c, _, hr⟩ | ⟨hr, _⟩
  · rw [hr]; exact fsle_writeFile fs dst c
  · rw [hr]; exact fsle_refl fs

theorem copyOne_dirs {forced skip : List String} {fs : FS} {i : FPath × FPath}
    {r : FS × List String} (h : copyOne forced skip fs i = some r) :
    r.1.dirs = fs.dirs := by
  obtain ⟨src, dst⟩ := i
  rcases copyOne_cases h with ⟨c, _, hr⟩ | ⟨hr, _⟩
  · rw [hr]; rfl
  · rw [hr]

theorem copyOne_exists_dst {forced skip : List String} {fs : FS}
    {src dst : FPath} {r : FS × List String}
    (h : copyOne forced skip fs (src, dst) = some r) :
    r.1.pathExists dst = true := by
  rcases copyOne_cases h with ⟨c, _, hr⟩ | ⟨hr, hd⟩
  · rw [hr]; exact pathExists_writeFile_self fs dst c
  · rw [hr]; exact hd

theorem copyOne_files_ne {forced skip : List String} {fs : FS}
    {src dst q : FPath} {r : FS × List String}
    (h : copyOne forced skip fs (src, dst) = some r) (hq : q ≠ dst) :
    r.1.files q = fs.files q := by
  rcases copyOne_cases h with ⟨c, _, hr⟩ | ⟨hr, _⟩
  · rw [hr]; exact writeFile_files_ne fs c hq
  · rw [hr]

theorem install_copy_fsle {forced skip : List String} :
    ∀ (items : List (FPath × FPath)) {fs fs' : FS},
      install_copy forced skip items fs = some fs' → FSLE fs fs'
  | [], fs, fs', h => by
    cases h; exact fsle_refl _
  | i :: rest, fs, fs', h => by
    unfold install_copy at h
    cases hc : copyOne forced skip fs i with
    | none => rw [hc] at h; cases h
    | some r =>
      rw [hc] at h
      exact fsle_trans (copyOne_fsle hc) (install_copy_fsle rest h)

theorem renderOne_exists {tmpl : FPath → OptsC → String} {ctx : OptsC}
    {fs : FS} {src dst : FPath} (hd : fs.pathExists dst = true) :
    renderOne tmpl ctx fs (src, dst) = (fs, [renderAdvisoryMsg dst]) := by
  simp [renderOne, hd]

theorem renderOne_absent {tmpl : FPath → OptsC → String} {ctx : OptsC}
    {fs : FS} {src dst : FPath} (hd : fs.pathExists dst = false) :
    renderOne tmpl ctx fs (src, dst) =
      (fs.writeFile dst (tmpl src ctx), [renderProgressMsg src dst]) := by
  simp [renderOne, hd]

theorem renderOne_cases (tmpl : FPath → OptsC → String) (ctx : OptsC)
    (fs : FS) (src dst : FPath) :
    (renderOne tmpl ctx fs (src, dst)).1 = fs ∨
    ((renderOne tmpl ctx fs (src, dst)).1 =
        fs.writeFile dst (tmpl src ctx) ∧ fs.pathExists dst = false) := by
  by_cases hd : fs.pathExists dst = true
  · rw [renderOne_exists hd]; exact Or.inl rfl
  · replace hd : fs.pathExists dst = false := by simpa using hd
    rw [renderOne_absent hd]; exact Or.inr ⟨rfl, hd⟩

theorem renderOne_fsle (tmpl : FPath → OptsC → String) (ctx : OptsC)
    (fs : FS) (src dst : FPath) :
    FSLE fs (renderOne tmpl ctx fs (src, dst)).1 := by
  rcases renderOne_cases tmpl ctx fs src dst with hr | ⟨hr, _⟩
  · rw [hr]; exact fsle_refl fs
  · rw [hr]; exact fsle_writeFile fs dst _

theorem renderOne_exists_dst (tmpl : FPath → OptsC → String) (ctx : OptsC)
    (fs : FS) (src dst : FPath) :
    (renderOne tmpl ctx fs (src, dst)).1.pathExists dst = true := by
  by_cases hd : fs.pathExists dst = true
  · rw [renderOne_exists hd]; exact hd
  · replace hd : fs.pathExists dst = false := by simpa using hd
    rw [renderOne_absent hd]; exact pathExists_writeFile_self fs dst _

theorem renderOne_files_ne {tmpl : FPath → OptsC → String} {ctx : OptsC}
    {fs : FS} {src dst q : FPath} (hq : q ≠ dst) :
    (renderOne tmpl ctx fs (src, dst)).1.files q = fs.files q := by
  rcases renderOne_cases tmpl ctx fs src dst with hr | ⟨hr, _⟩
  · rw [hr]
  · rw [hr]; exact writeFile_files_ne fs _ hq

theorem renderOne_dirs (tmpl : FPath → OptsC → String) (ctx : OptsC)
    (fs : FS) (src dst : FPath) :
    (renderOne tmpl ctx fs (src, dst)).1.dirs = fs.dirs := by
  rcases renderOne_cases tmpl ctx fs src dst with hr | ⟨hr, _⟩
  · rw [hr]
  · rw [hr]; rfl

theorem append_local_settings_skip {opts : OptsC} {appDir : FPath} {fs : FS}
    (h : opts.local_settings = []) :
    append_local_settings opts appDir fs = some fs := by
  simp [append_local_settings, h]

theorem append_local_settings_fsle {opts : OptsC} {appDir : FPath}
    {fs fs' : FS} (h : append_local_settings opts appDir fs = some fs') :
    FSLE fs fs' := by
  unfold append_local_settings at h
  split at h
  · cases hc : fs.files opts.local_settings with
    | none => rw [hc] at h; cases h
    | some c =>
      rw [hc] at h
      cases h
      exact fsle_appendFile fs _ _
  · cases h; exact fsle_refl _

theorem appendFile_files_ne (fs : FS) {p q : FPath} (s : String) (h : q ≠ p) :
    (fs.appendFile p s).files q = fs.files q := by
  unfold FS.appendFile
  split <;> exact writeFile_files_ne fs _ h

theorem append_local_settings_files_ne {opts : OptsC} {appDir : FPath}
    {fs fs' : FS} {q : FPath}
    (h : append_local_settings opts appDir fs = some fs')
    (hq : q ≠ appDir ++ ["settings.py"]) : fs'.files q = fs.files q := by
  unfold append_local_settings at h
  split at h
  · cases hc : fs.files opts.local_settings with
    | none => rw [hc] at h; cases h
    | some c =>
      rw [hc] at h
      cases h
      exact appendFile_files_ne fs _ hq
  · cases h; rfl

theorem copyOne_always_writes {forced skip : List String} {fs : FS}
    {src dst : FPath} {r : FS × List String}
    (hm : forcedMatch dst forced = true)
    (h : copyOne forced skip fs (src, dst) = some r) :
    ∃ c, fs.files src = some c ∧ r.1 = fs.writeFile dst c := by
  by_cases hd : fs.pathExists dst = true
  · cases hsrc : fs.files src with
    | none => simp [copyOne, hd, hm, hsrc] at h
    | some c =>
      rw [copyOne_forced hd hm hsrc] at h
      refine ⟨c, rfl, ?_⟩
      rw [← Option.some.inj h]
  · replace hd : fs.pathExists dst = false := by simpa using hd
    cases hsrc : fs.files src with
    | none => simp [copyOne, hd, hsrc] at h
    | some c =>
      rw [copyOne_absent hd hsrc] at h
      refine ⟨c, rfl, ?_⟩
      rw [← Option.some.inj h]

theorem copyOne_exists_noforce {forced skip : List String} {fs : FS}
    {src dst : FPath} (hd : fs.pathExists dst = true)
    (hm : forcedMatch dst forced = false) :
    ∃ m, copyOne forced skip fs (src, dst) = some (fs, m) := by
  by_cases hk : basename dst ∈ skip
  · exact ⟨_, copyOne_skip hd hm hk⟩
  · exact ⟨_, copyOne_advisory hd hm hk⟩

theorem install_copy_nil (forced skip : List String) (fs : FS) :
    install_copy forced skip [] fs = some fs := rfl

theorem install_copy_cons (forced skip : List String) (i : FPath × FPath)
    (rest : List (FPath × FPath)) (fs : FS) :
    install_copy forced skip (i :: rest) fs =
      match copyOne forced skip fs i with
      | some r => install_copy forced skip rest r.1
      | Option.none => Option.none := rfl

theorem tmplSrc_eq (f : String) :
    tmplSrc f = ["askbot", "setup_templates"] ++ [f] := rfl

/-- Decomposition of one `_create_new_django_app` run into its two copy
operations, the settings render and the local-settings block. -/
theorem app_decomp {tmpl : FPath → OptsC → String} {appName : String}
    {opts : OptsC} {A F : FS}
    (h : create_new_django_app tmpl appName opts A = some F) :
    ∃ r1 r2,
      copyOne ["urls.py"] BLANK_FILES (A.createDir (opts.dir_name ++ [appName]))
        (tmplSrc "urls.py", opts.dir_name ++ [appName] ++ ["urls.py"]) = some r1 ∧
      copyOne ["urls.py"] BLANK_FILES r1.1
        (tmplSrc "__init__.py", opts.dir_name ++ [appName] ++ ["__init__.py"]) = some r2 ∧
      append_local_settings
        { opts with askbot_site := opts.dir_name, askbot_app := appName }
        (opts.dir_name ++ [appName])
        ((renderOne tmpl
            { opts with askbot_site := opts.dir_name, askbot_app := appName }
            r2.1
            (tmplSrc "settings.py.jinja2",
              opts.dir_name ++ [appName] ++ ["settings.py"])).1) = some F := by
  unfold create_new_django_app at h
  simp only [APP_FILES_TO_CREATE, List.map_cons, List.map_nil] at h
  cases hic : install_copy ["urls.py"] BLANK_FILES
      [(tmplSrc "urls.py", opts.dir_name ++ [appName] ++ ["urls.py"]),
       (tmplSrc "__init__.py", opts.dir_name ++ [appName] ++ ["__init__.py"])]
      (A.createDir (opts.dir_name ++ [appName])) with
  | none => rw [hic] at h; cases h
  | some fs2 =>
    rw [hic] at h
    have h2 : append_local_settings
        { opts with askbot_site := opts.dir_name, askbot_app := appName }
        (opts.dir_name ++ [appName])
        (install_render_with_jinja2 tmpl
          { opts with askbot_site := opts.dir_name, askbot_app := appName }
          [(tmplSrc "settings.py.jinja2",
            opts.dir_name ++ [appName] ++ ["settings.py"])] fs2) = some F := h
    rw [install_copy_cons] at hic
    cases hc1 : copyOne ["urls.py"] BLANK_FILES
        (A.createDir (opts.dir_name ++ [appName]))
        (tmplSrc "urls.py", opts.dir_name ++ [appName] ++ ["urls.py"]) with
    | none => rw [hc1] at hic; cases hic
    | some r1 =>
      rw [hc1] at hic
      have hic2 : install_copy ["urls.py"] BLANK_FILES
          [(tmplSrc "__init__.py", opts.dir_name ++ [appName] ++ ["__init__.py"])]
          r1.1 = some fs2 := hic
      rw [install_copy_cons] at hic2
      cases hc2 : copyOne ["urls.py"] BLANK_FILES r1.1
          (tmplSrc "__init__.py", opts.dir_name ++ [appName] ++ ["__init__.py"]) with
      | none => rw [hc2] at hic2; cases hic2
      | some r2 =>
        rw [hc2] at hic2
        have hfs2 : r2.1 = fs2 := Option.some.inj hic2
        refine ⟨r1, r2, rfl, hc2, ?_⟩
        rw [hfs2]
        exact h2

/-- The inversion facts about one `_create_new_django_app` run needed for
re-execution: monotone growth, the app directory exists afterwards, all
three app-level destinations exist, and the forced `urls.py` destination
carries exactly the final content of its template source. -/
theorem app_inv {tmpl : FPath → OptsC → String} {appName : String}
    {opts : OptsC} {A F : FS}
    (hname : appName ≠ "setup_templates")
    (h : create_new_django_app tmpl appName opts A = some F) :
    FSLE A F ∧ F.dirs (opts.dir_name ++ [appName]) = true ∧
    F.pathExists (opts.dir_name ++ [appName] ++ ["urls.py"]) = true ∧
    F.pathExists (opts.dir_name ++ [appName] ++ ["__init__.py"]) = true ∧
    F.pathExists (opts.dir_name ++ [appName] ++ ["settings.py"]) = true ∧
    (∃ c, F.files (tmplSrc "urls.py") = some c ∧
      F.files (opts.dir_name ++ [appName] ++ ["urls.py"]) = some c) := by
  have happne : opts.dir_name ++ [appName] ≠ ([] : FPath) := by simp
  have hstem : (["askbot"] ++ ["setup_templates"] : FPath) ≠
      opts.dir_name ++ [appName] :=
    ne_of_last (fun hh => hname hh.symm)
  have husrc_udst : tmplSrc "urls.py" ≠
      opts.dir_name ++ [appName] ++ ["urls.py"] := by
    rw [tmplSrc_eq]
    exact ne_of_stem hstem
  have husrc_idst : tmplSrc "urls.py" ≠
      opts.dir_name ++ [appName] ++ ["__init__.py"] := by
    rw [tmplSrc_eq]
    exact ne_of_last (by decide)
  have husrc_sdst : tmplSrc "urls.py" ≠
      opts.dir_name ++ [appName] ++ ["settings.py"] := by
    rw [tmplSrc_eq]
    exact ne_of_last (by decide)
  have hudst_idst : opts.dir_name ++ [appName] ++ ["urls.py"] ≠
      opts.dir_name ++ [appName] ++ ["__init__.py"] :=
    ne_of_last (by decide)
  have hudst_sdst : opts.dir_name ++ [appName] ++ ["urls.py"] ≠
      opts.dir_name ++ [appName] ++ ["settings.py"] :=
    ne_of_last (by decide)
  have hmf : forcedMatch (opts.dir_name ++ [appName] ++ ["urls.py"])
      ["urls.py"] = true := by
    rw [forcedMatch_single _ _ happne]
    rfl
  obtain ⟨r1, r2, hc1, hc2, happ⟩ := app_decomp h
  obtain ⟨c, hsrc1, hr1⟩ := copyOne_always_writes hmf hc1
  have hr2usrc : r2.1.files (tmplSrc "urls.py") = some c := by
    rw [copyOne_files_ne hc2 husrc_idst, hr1,
      writeFile_files_ne _ c husrc_udst]
    rw [createDir_files] at hsrc1 ⊢
    exact hsrc1
  have hr2udst : r2.1.files (opts.dir_name ++ [appName] ++ ["urls.py"]) = some c := by
    rw [copyOne_files_ne hc2 hudst_idst, hr1, writeFile_files_self]
  have hfle3 : FSLE r2.1 ((renderOne tmpl
      { opts with askbot_site := opts.dir_name, askbot_app := appName } r2.1
      (tmplSrc "settings.py.jinja2",
        opts.dir_name ++ [appName] ++ ["settings.py"])).1) :=
    renderOne_fsle _ _ _ _ _
  have hfleF : FSLE r2.1 F :=
    fsle_trans hfle3 (append_local_settings_fsle happ)
  have hFusrc : F.files (tmplSrc "urls.py") = some c := by
    rw [append_local_settings_files_ne happ husrc_sdst,
      renderOne_files_ne husrc_sdst]
    exact hr2usrc
  have hFudst : F.files (opts.dir_name ++ [appName] ++ ["urls.py"]) = some c := by
    rw [append_local_settings_files_ne happ hudst_sdst,
      renderOne_files_ne hudst_sdst]
    exact hr2udst
  have hleAF : FSLE A F :=
    fsle_trans (fsle_createDir A (opts.dir_name ++ [appName]))
      (fsle_trans (copyOne_fsle hc1) (fsle_trans (copyOne_fsle hc2) hfleF))
  refine ⟨hleAF, ?_, ?_, ?_, ?_, ⟨c, hFusrc, hFudst⟩⟩
  · apply hfleF.2
    apply (copyOne_fsle hc2).2
    apply (copyOne_fsle hc1).2
    exact createDir_dirs_self A (opts.dir_name ++ [appName])
  · apply fsle_pathExists hfleF
    apply fsle_pathExists (copyOne_fsle hc2)
    rw [hr1]
    exact pathExists_writeFile_self _ _ c
  · exact fsle_pathExists hfleF (copyOne_exists_dst hc2)
  · apply fsle_pathExists (append_local_settings_fsle happ)
    exact renderOne_exists_dst _ _ _ _ _

/-- The inversion facts about one `_create_new_django_project` run needed
for re-execution: the state only grows, the install and log directories
exist afterwards, the log file exists, and the `manage.py` destination
exists. -/
theorem project_inv {opts : OptsC} {fs A : FS}
    (h : create_new_django_project opts fs = some A) :
    FSLE fs A ∧ A.dirs opts.dir_name = true ∧
    A.dirs (opts.dir_name ++ [LOG_DIR_NAME]) = true ∧
    ((A.files ((opts.dir_name ++ [LOG_DIR_NAME]) ++ [opts.logfile_name])).isSome = true) ∧
    A.pathExists (opts.dir_name ++ ["manage.py"]) = true := by
  unfold create_new_django_project at h
  simp only [PROJECT_FILES_TO_CREATE, List.map_cons, List.map_nil] at h
  rw [install_copy_cons] at h
  cases hc : copyOne [] BLANK_FILES
      (((fs.createDir opts.dir_name).createDir
          (opts.dir_name ++ [LOG_DIR_NAME])).touch
        (opts.dir_name ++ [LOG_DIR_NAME] ++ [opts.logfile_name]))
      (tmplSrc "manage.py", opts.dir_name ++ ["manage.py"]) with
  | none =>
    rw [hc] at h
    cases h
  | some r =>
    rw [hc] at h
    simp only [install_copy_nil] at h
    have hA := Option.some.inj h
    subst hA
    have hle1 : FSLE fs r.1 :=
      fsle_trans (fsle_createDir fs opts.dir_name)
        (fsle_trans (fsle_createDir _ (opts.dir_name ++ [LOG_DIR_NAME]))
          (fsle_trans (fsle_touch _ _) (copyOne_fsle hc)))
    have hled : FSLE ((fs.createDir opts.dir_name).createDir
        (opts.dir_name ++ [LOG_DIR_NAME])) r.1 :=
      fsle_trans (fsle_touch _ _) (copyOne_fsle hc)
    have hd1 : r.1.dirs opts.dir_name = true := by
      apply hled.2
      exact (fsle_createDir _ _).2 _ (createDir_dirs_self fs opts.dir_name)
    have hd2 : r.1.dirs (opts.dir_name ++ [LOG_DIR_NAME]) = true := by
      apply hled.2
      exact createDir_dirs_self _ _
    have hlf : (r.1.files ((opts.dir_name ++ [LOG_DIR_NAME]) ++ [opts.logfile_name])).isSome = true := by
      apply (copyOne_fsle hc).1
      exact touch_files_self_isSome _ _
    exact ⟨hle1, hd1, hd2, hlf, copyOne_exists_dst hc⟩

/-- Re-running the project step over a state that already carries its
outputs changes nothing: the directories exist, the log file exists, and
the `manage.py` copy has an empty forced set, so nothing is written. -/
theorem project_noop {opts : OptsC} {F1 : FS}
    (hd1 : F1.dirs opts.dir_name = true)
    (hd2 : F1.dirs (opts.dir_name ++ [LOG_DIR_NAME]) = true)
    (hlf : (F1.files (opts.dir_name ++ [LOG_DIR_NAME] ++ [opts.logfile_name])).isSome = true)
    (hm : F1.pathExists (opts.dir_name ++ ["manage.py"]) = true) :
    create_new_django_project opts F1 = some F1 := by
  unfold create_new_django_project
  simp only [PROJECT_FILES_TO_CREATE, List.map_cons, List.map_nil]
  rw [createDir_noop hd1, createDir_noop hd2, touch_noop hlf]
  obtain ⟨m, hc⟩ := copyOne_exists_noforce hm (forcedMatch_nil _)
  rw [install_copy_cons, hc]
  rfl

/-- Re-running the app step over a state that already carries its outputs
changes nothing, provided no local-settings append is configured: the
forced `urls.py` copy rewrites the content the destination already has,
the other copy and the render are skipped. -/
theorem app_noop {tmpl : FPath → OptsC → String} {opts : OptsC} {F1 : FS}
    (hls : opts.local_settings = [])
    (hda : F1.dirs (opts.dir_name ++ ["askbot_app"]) = true)
    (hu : F1.pathExists (opts.dir_name ++ ["askbot_app"] ++ ["urls.py"]) = true)
    (hi : F1.pathExists (opts.dir_name ++ ["askbot_app"] ++ ["__init__.py"]) = true)
    (hs : F1.pathExists (opts.dir_name ++ ["askbot_app"] ++ ["settings.py"]) = true)
    (hequ : ∃ c, F1.files (tmplSrc "urls.py") = some c ∧
      F1.files (opts.dir_name ++ ["askbot_app"] ++ ["urls.py"]) = some c) :
    create_new_django_app tmpl "askbot_app" opts F1 = some F1 := by
  have happne : opts.dir_name ++ ["askbot_app"] ≠ ([] : FPath) := by simp
  have hmf : forcedMatch (opts.dir_name ++ ["askbot_app"] ++ ["urls.py"])
      ["urls.py"] = true := by
    rw [forcedMatch_single _ _ happne]
    rfl
  have hmfi : forcedMatch (opts.dir_name ++ ["askbot_app"] ++ ["__init__.py"])
      ["urls.py"] = false := by
    rw [forcedMatch_single _ _ happne]
    rfl
  obtain ⟨c, hcs, hcd⟩ := hequ
  have hc1 : copyOne ["urls.py"] BLANK_FILES F1
      (tmplSrc "urls.py", opts.dir_name ++ ["askbot_app"] ++ ["urls.py"]) =
      some (F1.writeFile (opts.dir_name ++ ["askbot_app"] ++ ["urls.py"]) c,
        [copyProgressMsg (tmplSrc "urls.py")
          (opts.dir_name ++ ["askbot_app"] ++ ["urls.py"]), forcedNoteMsg]) :=
    copyOne_forced hu hmf hcs
  rw [writeFile_noop hcd] at hc1
  have hic : install_copy ["urls.py"] BLANK_FILES
      [(tmplSrc "urls.py", opts.dir_name ++ ["askbot_app"] ++ ["urls.py"]),
       (tmplSrc "__init__.py", opts.dir_name ++ ["askbot_app"] ++ ["__init__.py"])]
      F1 = some F1 := by
    rw [install_copy_cons, hc1]
    show install_copy ["urls.py"] BLANK_FILES
      [(tmplSrc "__init__.py", opts.dir_name ++ ["askbot_app"] ++ ["__init__.py"])]
      F1 = some F1
    obtain ⟨m2, hc2⟩ := copyOne_exists_noforce hi hmfi
    rw [install_copy_cons, hc2]
    rfl
  unfold create_new_django_app
  simp only [APP_FILES_TO_CREATE, List.map_cons, List.map_nil]
  rw [createDir_noop hda, hic]
  show append_local_settings
      { opts with askbot_site := opts.dir_name, askbot_app := "askbot_app" }
      (opts.dir_name ++ ["askbot_app"])
      (install_render_with_jinja2 tmpl
        { opts with askbot_site := opts.dir_name, askbot_app := "askbot_app" }
        [(tmplSrc "settings.py.jinja2",
          opts.dir_name ++ ["askbot_app"] ++ ["settings.py"])] F1) = some F1
  have hr : install_render_with_jinja2 tmpl
      { opts with askbot_site := opts.dir_name, askbot_app := "askbot_app" }
      [(tmplSrc "settings.py.jinja2",
        opts.dir_name ++ ["askbot_app"] ++ ["settings.py"])] F1 = F1 := by
    show (renderOne tmpl
      { opts with askbot_site := opts.dir_name, askbot_app := "askbot_app" } F1
      (tmplSrc "settings.py.jinja2",
        opts.dir_name ++ ["askbot_app"] ++ ["settings.py"])).1 = F1
    rw [renderOne_exists hs]
  rw [hr]
  exact append_local_settings_skip hls


/-- Claim C1 (amended): re-executing the full deployment plan against the
state produced by a first execution leaves that state unchanged for the
CreateDir, Copy and Render operations — hence for the whole plan whenever
no Append operation is planned (no local-settings file configured).  The
unconditional Append refutes the original claim
(`c1_second_run_differs`). -/
theorem c1_plan_idempotent (tmpl : FPath → OptsC → String) (opts : OptsC)
    (fs0 F1 : FS) (hls : opts.local_settings = [])
    (hrun : runFullPlan tmpl opts fs0 = some F1) :
    runFullPlan tmpl opts F1 = some F1 := by
  unfold runFullPlan at hrun
  cases hA : create_new_django_project opts fs0 with
  | none => rw [hA] at hrun; cases hrun
  | some A =>
    rw [hA] at hrun
    have happ : create_new_django_app tmpl "askbot_app" opts A = some F1 := hrun
    obtain ⟨hleA, hd1, hd2, hlf, hmd⟩ := project_inv hA
    obtain ⟨hleAF, hda, hu, hi, hs, hequ⟩ := app_inv (by decide) happ
    have hd1F : F1.dirs opts.dir_name = true := hleAF.2 _ hd1
    have hd2F : F1.dirs (opts.dir_name ++ [LOG_DIR_NAME]) = true := hleAF.2 _ hd2
    have hlfF : (F1.files (opts.dir_name ++ [LOG_DIR_NAME] ++ [opts.logfile_name])).isSome = true :=
      hleAF.1 _ hlf
    have hmdF : F1.pathExists (opts.dir_name ++ ["manage.py"]) = true :=
      fsle_pathExists hleAF hmd
    unfold runFullPlan
    rw [project_noop hd1F hd2F hlfF hmdF]
    exact app_noop hls hda hu hi hs hequ

/-- Claim C1 witness: a concrete fresh install without local settings; the
second execution reproduces the state of the first. -/
theorem c1_plan_idempotent_witness :
    optsW.local_settings = [] ∧ runFullPlan tmplW optsW fsW = some fsW1 ∧
    runFullPlan tmplW optsW fsW1 = some fsW1 :=
  ⟨rfl, rfl, c1_plan_idempotent tmplW optsW fsW fsW1 rfl rfl⟩

/-- Claim C1 counterexample: with a configured local-settings file the
Append operation is re-executed by the second run, so the settings file
after two executions differs from the file after one (the local-settings
content is appended twice). -/
theorem c1_second_run_differs :
    ((runFullPlan tmplW optsX fsX).bind (runFullPlan tmplW optsX)).map
        (fun s => s.files ["site", "askbot_app", "settings.py"]) ≠
      (runFullPlan tmplW optsX fsX).map
        (fun s => s.files ["site", "askbot_app", "settings.py"]) := by
  decide

/-- Claim C2: when the target directory exists, contains a recognizable
prior project and `force` is false, the code does not skip project-level
creation and install the app files — it evaluates `options.force` with
attribute syntax on a plain dict (source line 432) and raises
`AttributeError` before performing any operation. -/
theorem c2_prior_project_attribute_error :
    deploy_askbot tmplW { dir_name := ["site"] } fsPrior =
      Except.error "AttributeError" := rfl

/-- Claim C3: for every Render operation, an existing destination is left
byte-for-byte unchanged and the advisory-merge message is the only emitted
message, while an absent destination receives the template rendered with
the resolved options as context. -/
theorem c3_render_policy (tmpl : FPath → OptsC → String) (ctx : OptsC)
    (fs : FS) (src dst : FPath) :
    (fs.pathExists dst = true →
      renderOne tmpl ctx fs (src, dst) = (fs, [renderAdvisoryMsg dst])) ∧
    (fs.pathExists dst = false →
      renderOne tmpl ctx fs (src, dst) =
        (fs.writeFile dst (tmpl src ctx), [renderProgressMsg src dst])) :=
  ⟨fun hd => renderOne_exists hd, fun hd => renderOne_absent hd⟩

/-- Claim C3 witness: both render cases at concrete inputs. -/
theorem c3_render_policy_witness :
    fsPrior.pathExists ["site", "manage.py"] = true ∧
    renderOne tmplW optsW fsPrior
        (tmplSrc "settings.py.jinja2", ["site", "manage.py"]) =
      (fsPrior, [renderAdvisoryMsg ["site", "manage.py"]]) ∧
    fsPrior.pathExists ["site", "settings.py"] = false ∧
    renderOne tmplW optsW fsPrior
        (tmplSrc "settings.py.jinja2", ["site", "settings.py"]) =
      (fsPrior.writeFile ["site", "settings.py"]
          (tmplW (tmplSrc "settings.py.jinja2") optsW),
        [renderProgressMsg (tmplSrc "settings.py.jinja2") ["site", "settings.py"]]) :=
  ⟨by decide,
   (c3_render_policy tmplW optsW fsPrior (tmplSrc "settings.py.jinja2")
      ["site", "manage.py"]).1 (by decide),
   by decide,
   (c3_render_policy tmplW optsW fsPrior (tmplSrc "settings.py.jinja2")
      ["site", "settings.py"]).2 (by decide)⟩

theorem forcedMatch_false_of_skip {dst : FPath} {skip forced : List String}
    (hdisj : ∀ s, s ∈ skip → s ∉ forced) (hk : basename dst ∈ skip) :
    forcedMatch dst forced = false := by
  unfold forcedMatch
  rw [List.any_eq_false]
  intro x hx
  have hbx : basename dst ≠ x := fun he => (hdisj _ hk) (he ▸ hx)
  unfold endsWithSep
  cases hl : dst.getLast? with
  | none => simp [hl]
  | some b =>
    have hbne : ¬(b = x) := fun he => hbx (by simp [basename, hl, he])
    simp [hl, hbne]

/-- Claim C4: the complete conflict policy of a Copy operation, for any
skip-silently set disjoint from the forced set (as in both installer call
sites): absent destination is copied verbatim; existing destination with a
forced basename is overwritten unconditionally; existing destination with a
skip-silently basename is left alone with no warning; any other existing
destination is left alone with the advisory message naming both files; and
an existing destination changes only when its basename is forced. -/
theorem c4_copy_policy (forced skip : List String) (fs : FS)
    (src dst : FPath) (c : String)
    (hdisj : ∀ s, s ∈ skip → s ∉ forced) :
    (fs.pathExists dst = false → fs.files src = some c →
      copyOne forced skip fs (src, dst) =
        some (fs.writeFile dst c, [copyProgressMsg src dst])) ∧
    (fs.pathExists dst = true → forcedMatch dst forced = true →
      fs.files src = some c →
      copyOne forced skip fs (src, dst) =
        some (fs.writeFile dst c, [copyProgressMsg src dst, forcedNoteMsg])) ∧
    (fs.pathExists dst = true → basename dst ∈ skip →
      copyOne forced skip fs (src, dst) = some (fs, [copyProgressMsg src dst])) ∧
    (fs.pathExists dst = true → forcedMatch dst forced = false →
      basename dst ∉ skip →
      copyOne forced skip fs (src, dst) =
        some (fs, [copyProgressMsg src dst, copyAdvisoryMsg src])) ∧
    (∀ r, fs.pathExists dst = true →
      copyOne forced skip fs (src, dst) = some r →
      r.1.files dst ≠ fs.files dst → forcedMatch dst forced = true) := by
  refine ⟨fun hd hs => copyOne_absent hd hs,
    fun hd hm hs => copyOne_forced hd hm hs,
    fun hd hk => copyOne_skip hd (forcedMatch_false_of_skip hdisj hk) hk,
    fun hd hm hk => copyOne_advisory hd hm hk,
    fun r hd hr hne => ?_⟩
  by_cases hm : forcedMatch dst forced = true
  · exact hm
  · exfalso
    replace hm : forcedMatch dst forced = false := by simpa using hm
    by_cases hk : basename dst ∈ skip
    · rw [copyOne_skip hd hm hk] at hr
      cases hr
      exact hne rfl
    · rw [copyOne_advisory hd hm hk] at hr
      cases hr
      exact hne rfl

/-- Claim C4 witness: all four copy cases at concrete inputs with the
installer's forced set and skip-silently set. -/
theorem c4_copy_policy_witness :
    copyOne ["urls.py"] BLANK_FILES fsC4
        (tmplSrc "urls.py", ["site", "askbot_app", "urls.py"]) =
      some (fsC4.writeFile ["site", "askbot_app", "urls.py"] "URLS",
        [copyProgressMsg (tmplSrc "urls.py") ["site", "askbot_app", "urls.py"]]) ∧
    copyOne ["urls.py"] BLANK_FILES fsC4
        (tmplSrc "urls.py", ["site", "urls.py"]) =
      some (fsC4.writeFile ["site", "urls.py"] "URLS",
        [copyProgressMsg (tmplSrc "urls.py") ["site", "urls.py"], forcedNoteMsg]) ∧
    copyOne ["urls.py"] BLANK_FILES fsC4
        (tmplSrc "manage.py", ["site", "README.md"]) =
      some (fsC4, [copyProgressMsg (tmplSrc "manage.py") ["site", "README.md"]]) ∧
    copyOne ["urls.py"] BLANK_FILES fsC4
        (tmplSrc "manage.py", ["site", "manage.py"]) =
      some (fsC4, [copyProgressMsg (tmplSrc "manage.py") ["site", "manage.py"],
        copyAdvisoryMsg (tmplSrc "manage.py")]) :=
  ⟨(c4_copy_policy ["urls.py"] BLANK_FILES fsC4 (tmplSrc "urls.py")
      ["site", "askbot_app", "urls.py"] "URLS" (by decide)).1
      (by decide) (by decide),
   (c4_copy_policy ["urls.py"] BLANK_FILES fsC4 (tmplSrc "urls.py")
      ["site", "urls.py"] "URLS" (by decide)).2.1
      (by decide) (by decide) (by decide),
   (c4_copy_policy ["urls.py"] BLANK_FILES fsC4 (tmplSrc "manage.py")
      ["site", "README.md"] "MANAGE" (by decide)).2.2.1
      (by decide) (by decide),
   (c4_copy_policy ["urls.py"] BLANK_FILES fsC4 (tmplSrc "manage.py")
      ["site", "manage.py"] "MANAGE" (by decide)).2.2.2.1
      (by decide) (by decide) (by decide)⟩

/-- Claim C5 counterexample: the settings destination already exists, so
the Render is skipped, yet the Append is still reached and changes the
settings file — refuting that the Append is only reached after a fresh
Render. -/
theorem c5_append_despite_skipped_render :
    fsC5.pathExists ["site", "askbot_app", "settings.py"] = true ∧
    (create_new_django_app tmplW "askbot_app" optsX fsC5).map
        (fun s => s.files ["site", "askbot_app", "settings.py"]) =
      some (some "OLD\nEXTRA") := by
  decide

/-- Claim C5 (amended): whenever a non-empty local-settings path naming an
existing file is configured, the app step performs the Append regardless of
whether the settings Render was performed or skipped: it opens the
destination in append mode and writes a separating newline followed by the
external content verbatim.  Here the destination already exists (Render
skipped), and the final settings file is the old content plus the
separator plus the local-settings content. -/
theorem c5_append_unconditional (tmpl : FPath → OptsC → String)
    (appName : String) (opts : OptsC) (fs F : FS) (o lc : String)
    (hls : 0 < opts.local_settings.length)
    (hlc : fs.files opts.local_settings = some lc)
    (ho : fs.files (opts.dir_name ++ [appName] ++ ["settings.py"]) = some o)
    (_hne1 : opts.local_settings ≠ opts.dir_name ++ [appName] ++ ["settings.py"])
    (hne2 : opts.local_settings ≠ opts.dir_name ++ [appName] ++ ["urls.py"])
    (hne3 : opts.local_settings ≠ opts.dir_name ++ [appName] ++ ["__init__.py"])
    (hF : create_new_django_app tmpl appName opts fs = some F) :
    F.files (opts.dir_name ++ [appName] ++ ["settings.py"]) =
      some (o ++ ("\n" ++ lc)) := by
  obtain ⟨r1, r2, hc1, hc2, happ⟩ := app_decomp hF
  have hsdst_udst : opts.dir_name ++ [appName] ++ ["settings.py"] ≠
      opts.dir_name ++ [appName] ++ ["urls.py"] := ne_of_last (by decide)
  have hsdst_idst : opts.dir_name ++ [appName] ++ ["settings.py"] ≠
      opts.dir_name ++ [appName] ++ ["__init__.py"] := ne_of_last (by decide)
  have hr2sdst : r2.1.files (opts.dir_name ++ [appName] ++ ["settings.py"]) = some o := by
    rw [copyOne_files_ne hc2 hsdst_idst, copyOne_files_ne hc1 hsdst_udst,
      createDir_files]
    exact ho
  have hr2lc : r2.1.files opts.local_settings = some lc := by
    rw [copyOne_files_ne hc2 hne3, copyOne_files_ne hc1 hne2, createDir_files]
    exact hlc
  have hsp : r2.1.pathExists (opts.dir_name ++ [appName] ++ ["settings.py"]) = true :=
    pathExists_of_isSome (by rw [hr2sdst]; rfl)
  have hfs3 : (renderOne tmpl
      { opts with askbot_site := opts.dir_name, askbot_app := appName } r2.1
      (tmplSrc "settings.py.jinja2",
        opts.dir_name ++ [appName] ++ ["settings.py"])).1 = r2.1 := by
    rw [renderOne_exists hsp]
  rw [hfs3] at happ
  unfold append_local_settings at happ
  rw [if_pos ⟨hls, pathExists_of_isSome (by rw [hr2lc]; rfl)⟩] at happ
  rw [hr2lc] at happ
  have hFv : r2.1.appendFile (opts.dir_name ++ [appName] ++ ["settings.py"])
      ("\n" ++ lc) = F := Option.some.inj happ
  rw [← hFv]
  unfold FS.appendFile
  rw [hr2sdst]
  exact writeFile_files_self _ _ _

/-- Claim C5 witness: the amended append behaviour at the concrete
render-skipped input. -/
theorem c5_append_unconditional_witness :
    create_new_django_app tmplW "askbot_app" optsX fsC5 = some fsC5App ∧
    fsC5App.files ["site", "askbot_app", "settings.py"] =
      some ("OLD" ++ ("\n" ++ "EXTRA")) :=
  ⟨rfl,
   c5_append_unconditional tmplW "askbot_app" optsX fsC5 fsC5App "OLD" "EXTRA"
     (by decide) (by decide) (by decide) (by decide) (by decide) (by decide) rfl⟩

/-- Unfolding of one loop iteration whose candidate is an existing
regular file: the confirmation answer decides `database_file_name`, and
the truthiness test decides between returning it and re-prompting. -/
theorem sqliteNameLoop_cons_file (isf isd : String → Bool) (v ans : String)
    (rest : List String) (hf : isf v = true) :
    sqliteNameLoop isf isd (v :: ans :: rest) =
      (if truthyStr (if ans = "yes" then some v else Option.none) then
        (if ans = "yes" then some v else Option.none)
       else sqliteNameLoop isf isd rest) := by
  rw [sqliteNameLoop.eq_def]
  dsimp only
  rw [if_pos hf]

/-- Unfolding of one loop iteration whose candidate is not an existing
regular file: `sqliteCandidate` decides `database_file_name`, and the
truthiness test decides between returning it and re-prompting. -/
theorem sqliteNameLoop_cons_nofile (isf isd : String → Bool) (v : String)
    (rest : List String) (hf : isf v = false) :
    sqliteNameLoop isf isd (v :: rest) =
      (if truthyStr (sqliteCandidate isd v) then sqliteCandidate isd v
       else sqliteNameLoop isf isd rest) := by
  rw [sqliteNameLoop.eq_def]
  dsimp only
  rw [if_neg (by simp [hf])]

/-- Soundness of the sqlite file-name loop: an accepted name is non-empty
(the line-672 truthiness test) and is either an existing regular file
(confirmed for reuse) or a name that is no directory, no reserved
installation filename and not the log-directory name. -/
theorem sqliteNameLoop_sound (isf isd : String → Bool) :
    ∀ (script : List String) (v : String),
      sqliteNameLoop isf isd script = some v →
      v ≠ "" ∧ (isf v = true ∨
        (isd v = false ∧ v ∉ FILES_TO_CREATE ∧ v ≠ LOG_DIR_NAME))
  | [], v, h => by
    rw [sqliteNameLoop.eq_def] at h
    cases h
  | w :: rest, v, h => by
    by_cases hf : isf w = true
    · cases rest with
      | nil =>
        rw [sqliteNameLoop.eq_def] at h
        dsimp only at h
        rw [if_pos hf] at h
        cases h
      | cons ans rest2 =>
        rw [sqliteNameLoop_cons_file isf isd w ans rest2 hf] at h
        by_cases ha : ans = "yes"
        · simp only [if_pos ha] at h
          by_cases hw : w = ""
          · subst hw
            rw [if_neg (by simp [truthyStr])] at h
            exact sqliteNameLoop_sound isf isd rest2 v h
          · rw [if_pos (by simp [truthyStr, hw])] at h
            cases h
            exact ⟨hw, Or.inl hf⟩
        · simp only [if_neg ha] at h
          rw [if_neg (by simp [truthyStr])] at h
          exact sqliteNameLoop_sound isf isd rest2 v h
    · replace hf : isf w = false := by simpa using hf
      rw [sqliteNameLoop_cons_nofile isf isd w rest hf] at h
      by_cases hd : isd w = true
      · rw [show sqliteCandidate isd w = Option.none from
            by simp [sqliteCandidate, hd]] at h
        rw [if_neg (by simp [truthyStr])] at h
        exact sqliteNameLoop_sound isf isd rest v h
      · replace hd : isd w = false := by simpa using hd
        by_cases hmem : w ∈ FILES_TO_CREATE
        · rw [show sqliteCandidate isd w = Option.none from
              by simp [sqliteCandidate, hd, hmem]] at h
          rw [if_neg (by simp [truthyStr])] at h
          exact sqliteNameLoop_sound isf isd rest v h
        · by_cases hlog : w = LOG_DIR_NAME
          · rw [show sqliteCandidate isd w = Option.none from
                by simp [sqliteCandidate, hd, hmem, hlog]] at h
            rw [if_neg (by simp [truthyStr])] at h
            exact sqliteNameLoop_sound isf isd rest v h
          · rw [show sqliteCandidate isd w = some w from
                by simp [sqliteCandidate, hd, hmem, hlog]] at h
            by_cases hw : w = ""
            · subst hw
              rw [if_neg (by simp [truthyStr])] at h
              exact sqliteNameLoop_sound isf isd rest v h
            · rw [if_pos (by simp [truthyStr, hw])] at h
              cases h
              exact ⟨hw, Or.inr ⟨hd, hmem, hlog⟩⟩

/-- Claim C6 counterexample: a candidate that names an existing regular
file is sent to the confirmation dialog first, even when it is a reserved
installation filename; a confirmed reuse accepts `manage.py` as the
database name, which the claim's rule ordering (directory, then reserved,
then file confirmation) would have rejected. -/
theorem c6_reserved_file_accepted :
    sqliteNameLoop (fun v => v == "manage.py") (fun _ => false)
        ["manage.py", "yes"] = some "manage.py" ∧
    "manage.py" ∈ FILES_TO_CREATE := by
  decide

/-- Claim C6 (amended): the sqlite database-name rules in the order the
code applies them — (1) a non-empty value naming an existing regular file
asks for confirmation, re-prompting when not confirmed and accepting the
name (even a reserved one) when confirmed; (2) otherwise an existing
directory is rejected and the prompt repeats; (3) otherwise a reserved
installation filename or the log-directory name is rejected and the prompt
repeats; (4) any other non-empty name is accepted; (5) the line-672
truthiness test re-prompts on an empty candidate even when it conflicts
with nothing; and every accepted name is non-empty and either a confirmed
existing file or conflict-free. -/
theorem c6_sqlite_name_rules :
    (∀ (isf isd : String → Bool) (v ans : String) (rest : List String),
      isf v = true → v ≠ "" →
      sqliteNameLoop isf isd (v :: ans :: rest) =
        (if ans = "yes" then some v else sqliteNameLoop isf isd rest)) ∧
    (∀ (isf isd : String → Bool) (v : String) (rest : List String),
      isf v = false → isd v = true →
      sqliteNameLoop isf isd (v :: rest) = sqliteNameLoop isf isd rest) ∧
    (∀ (isf isd : String → Bool) (v : String) (rest : List String),
      isf v = false → isd v = false →
      (v ∈ FILES_TO_CREATE ∨ v = LOG_DIR_NAME) →
      sqliteNameLoop isf isd (v :: rest) = sqliteNameLoop isf isd rest) ∧
    (∀ (isf isd : String → Bool) (v : String) (rest : List String),
      isf v = false → isd v = false → v ∉ FILES_TO_CREATE →
      v ≠ LOG_DIR_NAME → v ≠ "" →
      sqliteNameLoop isf isd (v :: rest) = some v) ∧
    (∀ (isf isd : String → Bool) (rest : List String),
      isf "" = false → isd "" = false →
      sqliteNameLoop isf isd ("" :: rest) = sqliteNameLoop isf isd rest) ∧
    (∀ (isf isd : String → Bool) (script : List String) (v : String),
      sqliteNameLoop isf isd script = some v →
      v ≠ "" ∧ (isf v = true ∨
        (isd v = false ∧ v ∉ FILES_TO_CREATE ∧ v ≠ LOG_DIR_NAME))) := by
  refine ⟨?_, ?_, ?_, ?_, ?_, fun isf isd => sqliteNameLoop_sound isf isd⟩
  · intro isf isd v ans rest hf hv
    rw [sqliteNameLoop_cons_file isf isd v ans rest hf]
    by_cases ha : ans = "yes"
    · simp only [if_pos ha]
      rw [if_pos (by simp [truthyStr, hv])]
    · simp only [if_neg ha]
      rw [if_neg (by simp [truthyStr])]
  · intro isf isd v rest hf hd
    rw [sqliteNameLoop_cons_nofile isf isd v rest hf,
      show sqliteCandidate isd v = Option.none from
        by simp [sqliteCandidate, hd]]
    rw [if_neg (by simp [truthyStr])]
  · intro isf isd v rest hf hd hres
    rw [sqliteNameLoop_cons_nofile isf isd v rest hf]
    rcases hres with hmem | hlog
    · rw [show sqliteCandidate isd v = Option.none from
          by simp [sqliteCandidate, hd, hmem]]
      rw [if_neg (by simp [truthyStr])]
    · by_cases hmem : v ∈ FILES_TO_CREATE
      · rw [show sqliteCandidate isd v = Option.none from
            by simp [sqliteCandidate, hd, hmem]]
        rw [if_neg (by simp [truthyStr])]
      · rw [show sqliteCandidate isd v = Option.none from
            by simp [sqliteCandidate, hd, hmem, hlog]]
        rw [if_neg (by simp [truthyStr])]
  · intro isf isd v rest hf hd hmem hlog hv
    rw [sqliteNameLoop_cons_nofile isf isd v rest hf,
      show sqliteCandidate isd v = some v from
        by simp [sqliteCandidate, hd, hmem, hlog]]
    rw [if_pos (by simp [truthyStr, hv])]
  · intro isf isd rest hf hd
    rw [sqliteNameLoop_cons_nofile isf isd "" rest hf,
      show sqliteCandidate isd "" = some "" from by
        simp [sqliteCandidate, hd]
        decide]
    rw [if_neg (by simp [truthyStr])]

/-- Claim C6 witness: each rule at concrete inputs — a confirmed existing
file, a rejected directory, a rejected reserved name, an accepted free
name, a re-prompted empty candidate, and the soundness of an accepted
value. -/
theorem c6_sqlite_name_rules_witness :
    (sqliteNameLoop (fun v => v == "old.db") (fun _ => false)
        ["old.db", "yes", "later"] =
      (if ("yes" : String) = "yes" then some "old.db"
       else sqliteNameLoop (fun v => v == "old.db") (fun _ => false) ["later"])) ∧
    (sqliteNameLoop (fun _ => false) (fun v => v == "somedir")
        ["somedir", "fresh.db"] =
      sqliteNameLoop (fun _ => false) (fun v => v == "somedir") ["fresh.db"]) ∧
    (sqliteNameLoop (fun _ => false) (fun _ => false) ["manage.py", "fresh.db"] =
      sqliteNameLoop (fun _ => false) (fun _ => false) ["fresh.db"]) ∧
    (sqliteNameLoop (fun _ => false) (fun _ => false) ["fresh.db"] =
      some "fresh.db") ∧
    (sqliteNameLoop (fun _ => false) (fun _ => false) ["", "fresh.db"] =
      sqliteNameLoop (fun _ => false) (fun _ => false) ["fresh.db"]) ∧
    ("old.db" ≠ "" ∧ ((fun v => (v == "old.db" : Bool)) "old.db" = true ∨
      ((fun _ => (false : Bool)) "old.db" = false ∧
        "old.db" ∉ FILES_TO_CREATE ∧ "old.db" ≠ LOG_DIR_NAME))) :=
  ⟨c6_sqlite_name_rules.1 _ _ _ _ _ (by decide) (by decide),
   c6_sqlite_name_rules.2.1 _ _ _ _ (by decide) (by decide),
   c6_sqlite_name_rules.2.2.1 _ _ _ _ (by decide) (by decide) (Or.inl (by decide)),
   c6_sqlite_name_rules.2.2.2.1 _ _ _ _ (by decide) (by decide) (by decide)
     (by decide) (by decide),
   c6_sqlite_name_rules.2.2.2.2.1 _ _ _ (by decide) (by decide),
   c6_sqlite_name_rules.2.2.2.2.2 (fun v => v == "old.db") (fun _ => false)
     ["old.db", "yes"] "old.db" (by decide)⟩

/-- No branch of the engine-dependent prompting touches the secret key. -/
theorem collect_db_options_secret {isf isd : String → Bool}
    {script : List String} {o0 o : OptsC}
    (h : collect_db_options isf isd script o0 = some o) :
    o.secret_key = o0.secret_key := by
  unfold collect_db_options at h
  split at h
  · split at h
    · cases h
      rfl
    · split at h
      · cases h
        rfl
      · cases h
  · split at h
    · cases h
    · split at h
      · cases h
      · split at h
        · cases h
        · split at h
          · cases h
          · split at h
            · cases h
            · cases h
              rfl

/-- `collect_missing_options` assigns the secret key first (source line
650) and no later branch touches it: any successful result carries
`""` when key generation is disabled and the generated key otherwise. -/
theorem collect_secret {genKey : String} {isf isd : String → Bool}
    {script : List String} {opts o : OptsC}
    (h : collect_missing_options genKey isf isd script opts = some o) :
    o.secret_key = some (if opts.no_secret_key then "" else genKey) := by
  unfold collect_missing_options at h
  exact collect_db_options_secret h

/-- Claim C7 counterexample: with `--force` the call to
`collect_missing_options` is skipped entirely (source lines 281-282), so
the resolved configuration has no secret key at all — refuting that a
non-empty key is produced independently of the force mode. -/
theorem c7_force_skips_secret_key :
    (callResolve "KEY" (fun _ => false) (fun _ => false) ["2"] []
        { force := true }).map (fun o => o.secret_key) = some Option.none := by
  decide

/-- Claim C7 (amended): when `force` is false, the resolved secret key is
the empty string exactly when key generation is disabled and the freshly
generated key otherwise — for every other option choice; with a non-empty
generated key and generation enabled, the resolved key is non-empty and
present. -/
theorem c7_secret_key (genKey : String) (isf isd : String → Bool)
    (es ds : List String) (opts o : OptsC)
    (hforce : opts.force = false)
    (h : callResolve genKey isf isd es ds opts = some o) :
    o.secret_key = some (if opts.no_secret_key then "" else genKey) ∧
    (genKey ≠ "" → opts.no_secret_key = false →
      o.secret_key ≠ some "" ∧ o.secret_key ≠ Option.none) := by
  unfold callResolve at h
  cases hes : engineStep opts.database_engine es with
  | none => rw [hes] at h; cases h
  | some r =>
    rw [hes] at h
    have h2 : (match (if ({ opts with database_engine := r.1 } : OptsC).force = false
          then collect_missing_options genKey isf isd ds
            { opts with database_engine := r.1 }
          else some { opts with database_engine := r.1 }) with
        | Option.none => Option.none
        | some o2 =>
          match engineCodeName o2.database_engine with
          | some nm => some { o2 with database_engine := PyVal.str nm }
          | Option.none => Option.none) = some o := h
    rw [if_pos hforce] at h2
    cases hcol : collect_missing_options genKey isf isd ds
        { opts with database_engine := r.1 } with
    | none => rw [hcol] at h2; cases h2
    | some o2 =>
      rw [hcol] at h2
      have hsk0 := collect_secret hcol
      have hsk : o2.secret_key = some (if opts.no_secret_key then "" else genKey) :=
        hsk0
      have h3 : (match engineCodeName o2.database_engine with
          | some nm => some { o2 with database_engine := PyVal.str nm }
          | Option.none => Option.none) = some o := h2
      cases hen : engineCodeName o2.database_engine with
      | none => rw [hen] at h3; cases h3
      | some nm =>
        rw [hen] at h3
        have ho : ({ o2 with database_engine := PyVal.str nm } : OptsC) = o :=
          Option.some.inj h3
        have hmain : o.secret_key = some (if opts.no_secret_key then "" else genKey) := by
          rw [← ho]
          exact hsk
        refine ⟨hmain, fun hg hn => ?_⟩
        rw [hmain, hn]
        constructor
        · simpa using hg
        · simp

/-- Claim C7 witness: a concrete non-forced resolution yields the
generated key. -/
theorem c7_secret_key_witness :
    optsC7.force = false ∧
    callResolve "KEY" (fun _ => false) (fun _ => false) [] [] optsC7 =
      some optsC7R ∧
    optsC7R.secret_key = some (if optsC7.no_secret_key then "" else "KEY") :=
  ⟨rfl, rfl,
   (c7_secret_key "KEY" (fun _ => false) (fun _ => false) [] [] optsC7 optsC7R
      rfl rfl).1⟩

/-- Claim C8: a non-interactive run (`--no-input` stores
`interactive = False` in the options) with the required database fields
missing does not fail with a missing-value error — `collect_missing_options`
never consults the flag and prompts the console for every missing field,
returning the prompted values. -/
theorem c8_no_input_still_prompts :
    (collect_missing_options "KEY" (fun _ => false) (fun _ => false)
        ["mydb", "muser", "mpass", "mhost", "5432"]
        { database_engine := PyVal.str "1", interactive := false }).map
        (fun o => (o.interactive, o.database_name, o.database_user,
          o.database_password, o.database_host, o.database_port)) =
      some (false, some "mydb", some "muser", some "mpass", some "mhost",
        some "5432") := rfl

/-- Claim C9: the engine membership test at source line 269 compares the
parsed integer (or `None`) against the tuple of strings
`("1", "2", "3", "4")`, so it is false for every command-line value and
the choice prompt fires even for a valid code — here `--db-engine 2`
is discarded and the prompt answer `3` is used instead; the choice dialog
itself is constrained to the four codes, re-prompting on an invalid
answer. -/
theorem c9_engine_prompt_always_fires :
    (∀ n : Int, pyIn (PyVal.int n) (DATABASE_ENGINE_CHOICES.map PyVal.str) = false) ∧
    pyIn PyVal.none (DATABASE_ENGINE_CHOICES.map PyVal.str) = false ∧
    engineStep (PyVal.int 2) ["3"] = some (PyVal.str "3", []) ∧
    choiceDialog DATABASE_ENGINE_CHOICES ["7", "3"] = some ("3", []) :=
  ⟨fun n => rfl, by decide, by decide, by decide⟩

theorem sameShape_refl (a : FS) : sameShape a a := ⟨fun _ => rfl, rfl⟩

theorem sameShape_pathExists {a b : FS} (h : sameShape a b) (p : FPath) :
    a.pathExists p = b.pathExists p := by
  simp [FS.pathExists, h.1 p, h.2]

theorem sameShape_files_none {a b : FS} (h : sameShape a b) {p : FPath}
    (ha : a.files p = Option.none) : b.files p = Option.none := by
  have hb := h.1 p
  rw [ha] at hb
  cases hc : b.files p with
  | none => rfl
  | some c => rw [hc] at hb; cases hb

theorem sameShape_files_some {a b : FS} (h : sameShape a b) {p : FPath}
    {c : String} (ha : a.files p = some c) : ∃ c2, b.files p = some c2 := by
  have hb := h.1 p
  rw [ha] at hb
  cases hc : b.files p with
  | none => rw [hc] at hb; cases hb
  | some c2 => exact ⟨c2, rfl⟩

theorem sameShape_writeFile {a b : FS} (h : sameShape a b) (p : FPath)
    (c1 c2 : String) : sameShape (a.writeFile p c1) (b.writeFile p c2) := by
  constructor
  · intro q
    by_cases hq : q = p <;> simp [FS.writeFile, hq, h.1 q]
  · simp [FS.writeFile, h.2]

theorem sameShape_createDir {a b : FS} (h : sameShape a b) (p : FPath) :
    sameShape (a.createDir p) (b.createDir p) := by
  unfold FS.createDir
  rw [h.2]
  split
  · exact h
  · exact ⟨h.1, rfl⟩

theorem sameShape_touch {a b : FS} (h : sameShape a b) (p : FPath) :
    sameShape (a.touch p) (b.touch p) := by
  unfold FS.touch
  rw [h.1 p]
  split
  · exact h
  · exact sameShape_writeFile h p "" ""

theorem sameShape_appendFile {a b : FS} (h : sameShape a b) (p : FPath)
    (s1 s2 : String) : sameShape (a.appendFile p s1) (b.appendFile p s2) := by
  unfold FS.appendFile
  cases ha : a.files p with
  | none =>
    rw [sameShape_files_none h ha]
    exact sameShape_writeFile h p s1 s2
  | some c =>
    obtain ⟨c2, hb⟩ := sameShape_files_some h ha
    rw [hb]
    exact sameShape_writeFile h p _ _

theorem relOptFS_copyOne {a b : FS} (h : sameShape a b)
    (forced skip : List String) (i : FPath × FPath) :
    relOptFS ((copyOne forced skip a i).map (fun r => r.1))
      ((copyOne forced skip b i).map (fun r => r.1)) := by
  obtain ⟨src, dst⟩ := i
  by_cases hd : a.pathExists dst = true
  · have hdb : b.pathExists dst = true := by
      rw [← sameShape_pathExists h]; exact hd
    by_cases hm : forcedMatch dst forced = true
    · cases hsa : a.files src with
      | none =>
        have hsb := sameShape_files_none h hsa
        simp [copyOne, hd, hdb, hm, hsa, hsb, relOptFS]
      | some c =>
        obtain ⟨c2, hsb⟩ := sameShape_files_some h hsa
        rw [copyOne_forced hd hm hsa, copyOne_forced hdb hm hsb]
        exact sameShape_writeFile h dst c c2
    · replace hm : forcedMatch dst forced = false := by simpa using hm
      by_cases hk : basename dst ∈ skip
      · rw [copyOne_skip hd hm hk, copyOne_skip hdb hm hk]
        exact h
      · rw [copyOne_advisory hd hm hk, copyOne_advisory hdb hm hk]
        exact h
  · replace hd : a.pathExists dst = false := by simpa using hd
    have hdb : b.pathExists dst = false := by
      rw [← sameShape_pathExists h]; exact hd
    cases hsa : a.files src with
    | none =>
      have hsb := sameShape_files_none h hsa
      simp [copyOne, hd, hdb, hsa, hsb, relOptFS]
    | some c =>
      obtain ⟨c2, hsb⟩ := sameShape_files_some h hsa
      rw [copyOne_absent hd hsa, copyOne_absent hdb hsb]
      exact sameShape_writeFile h dst c c2

theorem relOptFS_install_copy (forced skip : List String) :
    ∀ (items : List (FPath × FPath)) {a b : FS}, sameShape a b →
      relOptFS (install_copy forced skip items a)
        (install_copy forced skip items b)
  | [], _, _, h => h
  | i :: rest, a, b, h => by
    have hc := relOptFS_copyOne h forced skip i
    rw [install_copy_cons, install_copy_cons]
    cases hca : copyOne forced skip a i with
    | none =>
      cases hcb : copyOne forced skip b i with
      | none => trivial
      | some rb =>
        rw [hca, hcb] at hc
        cases hc
    | some ra =>
      cases hcb : copyOne forced skip b i with
      | none =>
        rw [hca, hcb] at hc
        cases hc
      | some rb =>
        rw [hca, hcb] at hc
        exact relOptFS_install_copy forced skip rest hc

theorem sameShape_renderOne (t1 t2 : FPath → OptsC → String) (c1 c2 : OptsC)
    {a b : FS} (h : sameShape a b) (i : FPath × FPath) :
    sameShape (renderOne t1 c1 a i).1 (renderOne t2 c2 b i).1 := by
  obtain ⟨src, dst⟩ := i
  by_cases hd : a.pathExists dst = true
  · rw [renderOne_exists hd,
      renderOne_exists (by rw [← sameShape_pathExists h]; exact hd)]
    exact h
  · replace hd : a.pathExists dst = false := by simpa using hd
    have hdb : b.pathExists dst = false := by
      rw [← sameShape_pathExists h]; exact hd
    rw [renderOne_absent hd, renderOne_absent hdb]
    exact sameShape_writeFile h dst _ _

theorem sameShape_install_render (t1 t2 : FPath → OptsC → String)
    (c1 c2 : OptsC) :
    ∀ (items : List (FPath × FPath)) {a b : FS}, sameShape a b →
      sameShape (install_render_with_jinja2 t1 c1 items a)
        (install_render_with_jinja2 t2 c2 items b)
  | [], _, _, h => h
  | i :: rest, _, _, h =>
    sameShape_install_render t1 t2 c1 c2 rest
      (sameShape_renderOne t1 t2 c1 c2 h i)

theorem relOptFS_append (opts : OptsC) (appDir : FPath) {a b : FS}
    (h : sameShape a b) :
    relOptFS (append_local_settings opts appDir a)
      (append_local_settings opts appDir b) := by
  unfold append_local_settings
  by_cases hc : 0 < opts.local_settings.length ∧
      a.pathExists opts.local_settings = true
  · have hcb : 0 < opts.local_settings.length ∧
        b.pathExists opts.local_settings = true :=
      ⟨hc.1, by rw [← sameShape_pathExists h]; exact hc.2⟩
    rw [if_pos hc, if_pos hcb]
    cases hfa : a.files opts.local_settings with
    | none =>
      rw [sameShape_files_none h hfa]
      trivial
    | some c =>
      obtain ⟨c2, hfb⟩ := sameShape_files_some h hfa
      rw [hfb]
      exact sameShape_appendFile h _ _ _
  · have hcb : ¬(0 < opts.local_settings.length ∧
        b.pathExists opts.local_settings = true) :=
      fun hb => hc ⟨hb.1, by rw [sameShape_pathExists h]; exact hb.2⟩
    rw [if_neg hc, if_neg hcb]
    exact h

theorem relOptFS_project (opts : OptsC) {a b : FS} (h : sameShape a b) :
    relOptFS (create_new_django_project opts a)
      (create_new_django_project opts b) := by
  unfold create_new_django_project
  exact relOptFS_install_copy _ _ _
    (sameShape_touch (sameShape_createDir (sameShape_createDir h _) _) _)

theorem relOptFS_app (t1 t2 : FPath → OptsC → String) (appName : String)
    (opts : OptsC) {a b : FS} (h : sameShape a b) :
    relOptFS (create_new_django_app t1 appName opts a)
      (create_new_django_app t2 appName opts b) := by
  unfold create_new_django_app
  dsimp only
  have h1 : sameShape (a.createDir (opts.dir_name ++ [appName]))
      (b.createDir (opts.dir_name ++ [appName])) := sameShape_createDir h _
  have h2 := relOptFS_install_copy ["urls.py"] BLANK_FILES
    (APP_FILES_TO_CREATE.map (fun f =>
      (tmplSrc f, opts.dir_name ++ [appName] ++ [f]))) h1
  cases hia : install_copy ["urls.py"] BLANK_FILES
      (APP_FILES_TO_CREATE.map (fun f =>
        (tmplSrc f, opts.dir_name ++ [appName] ++ [f])))
      (a.createDir (opts.dir_name ++ [appName])) with
  | none =>
    cases hib : install_copy ["urls.py"] BLANK_FILES
        (APP_FILES_TO_CREATE.map (fun f =>
          (tmplSrc f, opts.dir_name ++ [appName] ++ [f])))
        (b.createDir (opts.dir_name ++ [appName])) with
    | none =>
      trivial
    | some fb =>
      rw [hia, hib] at h2
      cases h2
  | some fa =>
    cases hib : install_copy ["urls.py"] BLANK_FILES
        (APP_FILES_TO_CREATE.map (fun f =>
          (tmplSrc f, opts.dir_name ++ [appName] ++ [f])))
        (b.createDir (opts.dir_name ++ [appName])) with
    | none =>
      rw [hia, hib] at h2
      cases h2
    | some fb =>
      rw [hia, hib] at h2
      exact relOptFS_append _ _
        (sameShape_install_render t1 t2 _ _ _ h2)

theorem relOptFS_runFullPlan (t1 t2 : FPath → OptsC → String) (opts : OptsC)
    {a b : FS} (h : sameShape a b) :
    relOptFS (runFullPlan t1 opts a) (runFullPlan t2 opts b) := by
  unfold runFullPlan
  have hp := relOptFS_project opts h
  cases hpa : create_new_django_project opts a with
  | none =>
    cases hpb : create_new_django_project opts b with
    | none =>
      trivial
    | some B =>
      rw [hpa, hpb] at hp
      cases hp
  | some A =>
    cases hpb : create_new_django_project opts b with
    | none =>
      rw [hpa, hpb] at hp
      cases hp
    | some B =>
      rw [hpa, hpb] at hp
      exact relOptFS_app t1 t2 "askbot_app" opts hp

/-- Claim C10: the application subdirectory is created under the fixed
name `askbot_app` (source line 441 passes the literal, not
`options["app_name"]`), and the `--app-name` value never affects any
destination path: changing `app_name` is observationally a change of the
render context only, and any two template/context choices produce the same
success or failure, the same directories and the same set of existing file
paths — so every destination of the deployment is independent of
`app_name`. -/
theorem c10_app_name_fixed :
    (∀ (tmpl : FPath → OptsC → String) (opts : OptsC) (v : String) (fs : FS),
      deploy_askbot tmpl { opts with app_name := v } fs =
        deploy_askbot (fun src ctx => tmpl src { ctx with app_name := v }) opts fs) ∧
    (∀ (t1 t2 : FPath → OptsC → String) (opts : OptsC) (fs : FS),
      relExceptFS (deploy_askbot t1 opts fs) (deploy_askbot t2 opts fs)) ∧
    (∀ (tmpl : FPath → OptsC → String) (opts : OptsC) (fs F : FS),
      deploy_askbot tmpl opts fs = Except.ok F →
      F.dirs (opts.dir_name ++ ["askbot_app"]) = true) := by
  refine ⟨fun tmpl opts v fs => rfl, ?_, ?_⟩
  · intro t1 t2 opts fs
    unfold deploy_askbot
    by_cases hg : (fs.pathExists opts.dir_name &&
        hasExistingDjangoProject fs opts.dir_name) = true
    · rw [if_pos hg, if_pos hg]
      exact rfl
    · rw [if_neg hg, if_neg hg]
      dsimp only
      have hr := relOptFS_runFullPlan t1 t2
        { opts with staticfiles_app := "django.contrib.staticfiles",
                    auth_context_processor := "django.contrib.auth.context_processors.auth" }
        (sameShape_refl fs)
      cases h1 : runFullPlan t1
          { opts with staticfiles_app := "django.contrib.staticfiles",
                      auth_context_processor := "django.contrib.auth.context_processors.auth" }
          fs with
      | none =>
        cases h2 : runFullPlan t2
            { opts with staticfiles_app := "django.contrib.staticfiles",
                        auth_context_processor := "django.contrib.auth.context_processors.auth" }
            fs with
        | none => exact rfl
        | some F2 =>
          rw [h1, h2] at hr
          cases hr
      | some F1 =>
        cases h2 : runFullPlan t2
            { opts with staticfiles_app := "django.contrib.staticfiles",
                        auth_context_processor := "django.contrib.auth.context_processors.auth" }
            fs with
        | none =>
          rw [h1, h2] at hr
          cases hr
        | some F2 =>
          rw [h1, h2] at hr
          exact hr
  · intro tmpl opts fs F h
    unfold deploy_askbot at h
    split at h
    · cases h
    · dsimp only at h
      cases hr : runFullPlan tmpl
          { opts with staticfiles_app := "django.contrib.staticfiles",
                      auth_context_processor := "django.contrib.auth.context_processors.auth" }
          fs with
      | none => rw [hr] at h; cases h
      | some F2 =>
        rw [hr] at h
        have hF : F2 = F := Except.ok.inj h
        subst hF
        unfold runFullPlan at hr
        cases hA : create_new_django_project
            { opts with staticfiles_app := "django.contrib.staticfiles",
                        auth_context_processor := "django.contrib.auth.context_processors.auth" }
            fs with
        | none => rw [hA] at hr; cases hr
        | some A =>
          rw [hA] at hr
          have happ : create_new_django_app tmpl "askbot_app"
              { opts with staticfiles_app := "django.contrib.staticfiles",
                          auth_context_processor := "django.contrib.auth.context_processors.auth" }
              A = some F2 := hr
          exact (app_inv (by decide) happ).2.1

/-- Claim C10 witness: a concrete successful deployment creates the app
directory at the fixed `askbot_app` name. -/
theorem c10_app_name_fixed_witness :
    deploy_askbot tmplW optsW fsW = Except.ok fsDepW ∧
    fsDepW.dirs (optsW.dir_name ++ ["askbot_app"]) = true :=
  ⟨rfl, c10_app_name_fixed.2.2 tmplW optsW fsW fsDepW rfl⟩
